import Mathlib

/-!
# ESP-Timer: shallow embedding of `timer_esp.cpp`

The sketch is a single polling loop over global variables.  The globals become
the record `State`, one pass through `loop()` becomes the function `loop`, and
the hardware reads of one pass (`millis()`, the three `digitalRead`s,
`WiFi.status()`) become the record `Inputs`.

Conventions.
* `unsigned long` is 32 bits wide on the ESP32; every `unsigned long`
  operation is written with an explicit reduction modulo `2 ^ 32`.
* `HIGH` is `true`, `LOW` is `false`.
* `millis()` returns the same value at every call inside one pass.
* The frame last sent to the display (`sendBuffer`) is kept in `State.display`,
  the lines printed on the serial port in `State.serial` (the progress dots of
  `connectToWiFi` are left out).
* The only unbounded loop, the backward search of `getLastSundayOfMonth`, takes
  a fuel argument and returns `none` when the fuel runs out; the functions that
  reach it (`checkForDaylightSavingTime`, `syncTimeWithNTP`, `setup`, `loop`)
  pass the fuel on and return an `Option`.
-/

namespace TimerEsp

/-! ## 32-bit unsigned arithmetic -/

/-- Number of values of an `unsigned long` (32 bits on the ESP32). -/
def ULONG : Nat := 4294967296

/-- Conversion of an `int` to `unsigned long`. -/
def toU32 (x : Int) : Nat := (x % 4294967296).toNat

/-- Addition of two `unsigned long`. -/
def add32 (a b : Nat) : Nat := (a + b) % ULONG

/-- Subtraction of two `unsigned long`: `a - b` wraps around below zero. -/
def sub32 (a b : Nat) : Nat := (a % ULONG + ULONG - b % ULONG) % ULONG

/-- Multiplication of two `unsigned long`. -/
def mul32 (a b : Nat) : Nat := (a * b) % ULONG

/-! ## Constants of the sketch -/

/-- Table `const int timerOptions[]` of the selectable durations in minutes. -/
def timerOptions : List Int := [1, 5, 10, 30, 60, 120, 240]

/-- Constant `numOptions = sizeof(timerOptions) / sizeof(timerOptions[0])`. -/
def numOptions : Int := timerOptions.length

/-- The element `timerOptions[i]`.  An index outside `0..6` is undefined
behaviour in C; the embedding returns `0` there and every statement that reads
the table carries the index bound. -/
def timerOptionAt (i : Int) : Int := if 0 ≤ i then timerOptions.getD i.toNat 0 else 0

/-- Constant `const unsigned long blinkInterval = 500`. -/
def blinkInterval : Nat := 500

/-- Constant `const unsigned long doubleClickTime = 400`. -/
def doubleClickTime : Nat := 400

/-- Constant `const int standardTimeOffset = 3600` (UTC+1). -/
def standardTimeOffset : Int := 3600

/-- Constant `const int daylightTimeOffset = 7200` (UTC+2). -/
def daylightTimeOffset : Int := 7200

/-! ## Display and serial output -/

/-- Status lines printed on the display during boot. -/
inductive StatusText where
  | verbindeWiFi
  | wifiVerbunden
  | wifiFehler
  | synchronisiereZeit
  | sommerzeit
  | normalzeit
  | zeitsyncFehlgeschlagen
  deriving DecidableEq, Repr

/-- Content of a frame sent to the display. -/
inductive Frame where
  /-- Result of `clearBuffer(); sendBuffer();`. -/
  | blank
  /-- One status line at `(0, 15)`. -/
  | status (t : StatusText)
  /-- Frame of `showDateTime`: `"%02d:%02d:%02d"` without border. -/
  | clock (h m s : Int)
  /-- Frame of `showSelection`: `"Select Time:"` and `"%d min"` in a border. -/
  | selection (minutes : Int)
  /-- Frame of `showRemaining` and of the lit phase of `handleFinishedScreen`:
  `"%02d:%02d:%02d"` centred at height 45 inside the double border. -/
  | framedTime (h m s : Int)
  deriving DecidableEq, Repr

/-- Lines printed on the serial port. -/
inductive SerialMsg where
  | timerReady
  | connecting
  | verbunden
  | verbindungFehlgeschlagen
  | synchronisiere
  | zeitSynchronisiert (h m s : Int) (dst : Bool)
  | zeitsyncFehlgeschlagen
  | timerStarted (minutes : Int)
  | timerFinished
  deriving DecidableEq, Repr

/-! ## State and inputs -/

/-- The global variables of the sketch. -/
structure State where
  selection : Int
  countdownActive : Bool
  finishedState : Bool
  countdownStartMillis : Nat
  countdownDurationMillis : Nat
  lastCLKState : Bool
  lastSWState : Bool
  buttonPressed : Bool
  finishedBlinkState : Bool
  lastBlinkMillis : Nat
  standbyMode : Bool
  lastButtonPressTime : Nat
  timeOffset : Nat
  currentHour : Int
  currentMinute : Int
  currentSecond : Int
  isDaylightSavingTime : Bool
  display : Frame
  serial : List SerialMsg
  deriving DecidableEq, Repr

/-- Values of the globals at their definitions (before `setup`). -/
def State.init : State where
  selection := 0
  countdownActive := false
  finishedState := false
  countdownStartMillis := 0
  countdownDurationMillis := 0
  lastCLKState := false
  lastSWState := true
  buttonPressed := false
  finishedBlinkState := false
  lastBlinkMillis := 0
  standbyMode := true
  lastButtonPressTime := 0
  timeOffset := 0
  currentHour := 12
  currentMinute := 0
  currentSecond := 0
  isDaylightSavingTime := false
  display := Frame.blank
  serial := []

/-- Answer of the time server as seen through `timeClient`. -/
structure NtpReply where
  /-- Value of `getEpochTime()` after `update()`, with time offset 0 (UTC seconds). -/
  epoch : Int
  /-- UTC seconds held by the client after `forceUpdate()`. -/
  epochAfter : Int
  deriving DecidableEq, Repr

/-- Behaviour of the network during one connection and synchronisation attempt. -/
structure Net where
  /-- Value of `WiFi.status() == WL_CONNECTED` after the waiting loop of `connectToWiFi`. -/
  wifiAfterConnect : Bool
  /-- Value of `WiFi.status() == WL_CONNECTED` at the start of `syncTimeWithNTP`. -/
  wifiAtSync : Bool
  /-- Value `some r` when `timeClient.update()` succeeds. -/
  ntp : Option NtpReply
  /-- Value of `millis()` when `connectToWiFi` calls `setInternalTime`. -/
  tConnect : Nat
  /-- Value of `millis()` when `syncTimeWithNTP` calls `setInternalTime`. -/
  tSync : Nat
  deriving DecidableEq, Repr

/-- Hardware reads of one pass through `loop()`. -/
structure Inputs where
  /-- Value of `millis()`, an `unsigned long`. -/
  now : Nat
  /-- Value of `digitalRead(CLK)`. -/
  clk : Bool
  /-- Value of `digitalRead(DT)`. -/
  dt : Bool
  /-- Value of `digitalRead(SW)`. -/
  sw : Bool
  /-- Value of `WiFi.status() == WL_CONNECTED`. -/
  wifi : Bool
  /-- Network behaviour, read only if the pass reconnects. -/
  net : Net
  deriving DecidableEq, Repr

/-- Operating mode decoded from the three flags. -/
inductive Mode where
  | Standby
  | Selecting
  | CountingDown
  | Finished
  deriving DecidableEq, Repr

/-- Mode of a state: Standby if `standbyMode`, else CountingDown if
`countdownActive`, else Finished if `finishedState`, else Selecting. -/
def State.mode (s : State) : Mode :=
  if s.standbyMode then Mode.Standby
  else if s.countdownActive then Mode.CountingDown
  else if s.finishedState then Mode.Finished
  else Mode.Selecting

/-! ## Wall clock -/

/-- Function `setInternalTime(hour, minute, second)` with `millis() = now`. -/
def setInternalTime (hour minute second : Int) (now : Nat) (s : State) : State :=
  { s with
    currentHour := hour
    currentMinute := minute
    currentSecond := second
    timeOffset :=
      sub32 now
        (mul32 (add32 (add32 (mul32 (toU32 hour) 3600) (mul32 (toU32 minute) 60)) (toU32 second))
          1000) }

/-- Function `updateInternalTime()` with `millis() = now`. -/
def updateInternalTime (now : Nat) (s : State) : State :=
  let elapsedMillis := sub32 now s.timeOffset
  let totalSeconds := elapsedMillis / 1000
  { s with
    currentSecond := ((totalSeconds % 60 : Nat) : Int)
    currentMinute := (((totalSeconds / 60) % 60 : Nat) : Int)
    currentHour := (((totalSeconds / 3600) % 24 : Nat) : Int) }

/-! ## Rendering -/

/-- Function `showDateTime()`. -/
def showDateTime (s : State) : State :=
  { s with display := Frame.clock s.currentHour s.currentMinute s.currentSecond }

/-- Function `showSelection()`. -/
def showSelection (s : State) : State :=
  { s with display := Frame.selection (timerOptionAt s.selection) }

/-- The frame drawn by `showRemaining(msRemaining)`. -/
def showRemainingFrame (msRemaining : Nat) : Frame :=
  let totalSeconds : Int := ((msRemaining / 1000 : Nat) : Int)
  let hours := Int.tdiv totalSeconds 3600
  let minutes := Int.tdiv (Int.tmod totalSeconds 3600) 60
  let seconds := Int.tmod totalSeconds 60
  Frame.framedTime (max hours 0) (max minutes 0) (max seconds 0)

/-- Function `showRemaining(msRemaining)`. -/
def showRemaining (msRemaining : Nat) (s : State) : State :=
  { s with display := showRemainingFrame msRemaining }

/-- Characters printed by the conversion `%02d`: the decimal digits, padded with
a zero to two characters; a negative number prints its sign and its digits. -/
def fmt02d (n : Int) : List Char :=
  if 0 ≤ n then
    if (Nat.toDigits 10 n.toNat).length < 2 then '0' :: Nat.toDigits 10 n.toNat
    else Nat.toDigits 10 n.toNat
  else '-' :: Nat.toDigits 10 (-n).toNat

/-- Characters produced by the format `"%02d:%02d:%02d"`. -/
def formatTime (h m s : Int) : List Char :=
  fmt02d h ++ ':' :: (fmt02d m ++ ':' :: fmt02d s)

/-- Text left in a buffer of `size` bytes by `snprintf` with the format
`"%02d:%02d:%02d"`: at most `size - 1` characters, followed by the terminator. -/
def snprintfTime (size : Nat) (h m s : Int) : List Char :=
  (formatTime h m s).take (size - 1)

/-- The text that `showRemaining(msRemaining)` leaves in its `char buffer[9]`. -/
def showRemainingText (msRemaining : Nat) : List Char :=
  let totalSeconds : Int := ((msRemaining / 1000 : Nat) : Int)
  let hours := Int.tdiv totalSeconds 3600
  let minutes := Int.tdiv (Int.tmod totalSeconds 3600) 60
  let seconds := Int.tmod totalSeconds 60
  snprintfTime 9 (max hours 0) (max minutes 0) (max seconds 0)

/-! ## Inputs handling -/

/-- Function `handleStandbyButton()`. -/
def handleStandbyButton (i : Inputs) (s : State) : State :=
  let currentSWState := i.sw
  let s1 :=
    if s.lastSWState = true ∧ currentSWState = false then
      let currentTime := i.now
      let s2 :=
        if sub32 currentTime s.lastButtonPressTime < doubleClickTime then
          let s3 := { s with standbyMode := !s.standbyMode }
          if !s3.standbyMode then { s3 with display := Frame.blank } else s3
        else s
      { s2 with lastButtonPressTime := currentTime, buttonPressed := true }
    else
      { s with buttonPressed := false }
  { s1 with lastSWState := currentSWState }

/-- Function `handleEncoder()`. -/
def handleEncoder (i : Inputs) (s : State) : State :=
  let currentCLKState := i.clk
  let s1 :=
    if currentCLKState ≠ s.lastCLKState ∧ currentCLKState = true then
      if i.dt = true then
        { s with selection := Int.tmod (s.selection + 1) numOptions }
      else
        { s with selection := Int.tmod (s.selection - 1 + numOptions) numOptions }
    else s
  { s1 with lastCLKState := currentCLKState }

/-- Function `startCountdown()` with `millis() = now`. -/
def startCountdown (now : Nat) (s : State) : State :=
  { s with
    countdownDurationMillis := mul32 (mul32 (toU32 (timerOptionAt s.selection)) 60) 1000
    countdownStartMillis := now
    countdownActive := true
    serial := s.serial ++ [SerialMsg.timerStarted (timerOptionAt s.selection)] }

/-- Function `handleButtonStart()`. -/
def handleButtonStart (now : Nat) (s : State) : State :=
  if s.buttonPressed && !s.standbyMode && !s.countdownActive then
    { startCountdown now s with buttonPressed := false }
  else s

/-- Function `handleButtonReset()`. -/
def handleButtonReset (s : State) : State :=
  if s.buttonPressed then
    let s1 :=
      if s.finishedState then
        showSelection { s with finishedState := false, countdownActive := false }
      else if s.countdownActive then
        showSelection { s with countdownActive := false }
      else s
    { s1 with buttonPressed := false }
  else s

/-- Function `updateCountdown()` with `millis() = now`. -/
def updateCountdown (now : Nat) (s : State) : State :=
  let elapsed := sub32 now s.countdownStartMillis
  let remaining :=
    if elapsed < s.countdownDurationMillis then sub32 s.countdownDurationMillis elapsed else 0
  let s1 :=
    if remaining ≤ 0 then
      { s with
        countdownActive := false
        finishedState := true
        lastBlinkMillis := now
        serial := s.serial ++ [SerialMsg.timerFinished] }
    else s
  showRemaining remaining s1

/-- Function `handleFinishedScreen()` with `millis() = now`. -/
def handleFinishedScreen (now : Nat) (s : State) : State :=
  let currentMillis := now
  if blinkInterval ≤ sub32 currentMillis s.lastBlinkMillis then
    let s1 := { s with finishedBlinkState := !s.finishedBlinkState, lastBlinkMillis := currentMillis }
    if s1.finishedBlinkState then { s1 with display := Frame.framedTime 0 0 0 }
    else { s1 with display := Frame.blank }
  else s

/-! ## Calendar arithmetic of the C library

The sketch calls `localtime` and `mktime`.  No time zone is configured, so both
work in UTC.  They are modelled on the proleptic Gregorian calendar: a day
number counts days since 1970-01-01, and years are cut at 1 March so that the
leap day is the last day of a year. -/

/-- Day number of the civil date `y`-`m`-`d` (month `1..12`).  The day may lie
outside the month: the result is linear in `d`. -/
def daysFromCivil (y m d : Int) : Int :=
  let y1 := if m ≤ 2 then y - 1 else y
  let era := y1 / 400
  let yoe := y1 - era * 400
  let mp := if 2 < m then m - 3 else m + 9
  let doy := (153 * mp + 2) / 5 + d - 1
  let doe := yoe * 365 + yoe / 4 - yoe / 100 + doy
  era * 146097 + doe - 719468

/-- A calendar date. -/
structure Civil where
  year : Int
  month : Int
  day : Int
  deriving DecidableEq, Repr

/-- Calendar date of a day number, by 400-, 100-, 4- and 1-year cycles. -/
def civilFromDays (z : Int) : Civil :=
  let n := z + 719468
  let era := n / 146097
  let doe := n % 146097
  let c := min (doe / 36524) 3
  let dc := doe - c * 36524
  let q := dc / 1461
  let dq := dc % 1461
  let r := min (dq / 365) 3
  let doy := dq - r * 365
  let yoe := c * 100 + q * 4 + r
  let mp := (5 * doy + 2) / 153
  let d := doy - (153 * mp + 2) / 5 + 1
  let m := if mp < 10 then mp + 3 else mp - 9
  let y := era * 400 + yoe
  { year := if m ≤ 2 then y + 1 else y, month := m, day := d }

/-- Day of the week of a day number, `0` = Sunday (1970-01-01 was a Thursday). -/
def weekdayFromDays (z : Int) : Int := (z + 4) % 7

/-- The fields of `struct tm` used by the sketch. -/
structure Tm where
  tm_sec : Int
  tm_min : Int
  tm_hour : Int
  tm_mday : Int
  tm_mon : Int
  tm_year : Int
  tm_wday : Int
  tm_isdst : Int
  deriving DecidableEq, Repr

/-- Seconds since the epoch of a broken-down UTC time; fields out of range
carry over (`tm_mon` into the year, all others linearly). -/
def timegm (tm : Tm) : Int :=
  let y := tm.tm_year + 1900 + tm.tm_mon / 12
  let m := tm.tm_mon % 12 + 1
  (daysFromCivil y m 1 + (tm.tm_mday - 1)) * 86400
    + tm.tm_hour * 3600 + tm.tm_min * 60 + tm.tm_sec

/-- Broken-down UTC time of an instant, `gmtime`. -/
def gmtime (t : Int) : Tm :=
  let days := t / 86400
  let rem := t % 86400
  let cv := civilFromDays days
  { tm_sec := rem % 60
    tm_min := (rem / 60) % 60
    tm_hour := rem / 3600
    tm_mday := cv.day
    tm_mon := cv.month - 1
    tm_year := cv.year - 1900
    tm_wday := weekdayFromDays days
    tm_isdst := 0 }

/-- Function `localtime(&t)`; the local zone is UTC. -/
def localtime (t : Int) : Tm := gmtime t

/-- Function `mktime(&tm)`: returns the normalised structure it writes back
(with `tm_wday` filled in) and the instant. -/
def mktime (tm : Tm) : Tm × Int := (gmtime (timegm tm), timegm tm)

/-! ## Daylight saving rule -/

/-- The loop `while (tm.tm_wday != 0) { tm.tm_mday--; mktime(&tm); }`; each
unit of fuel pays for one pass through the body, `none` means the fuel ran out. -/
def backToSunday : Nat → Tm → Option Tm
  | fuel, tm =>
    if tm.tm_wday ≠ 0 then
      match fuel with
      | 0 => none
      | f + 1 => backToSunday f (mktime { tm with tm_mday := tm.tm_mday - 1 }).1
    else some tm

/-- Function `getLastSundayOfMonth(year, month)`.  The fields `tm_wday` of the
local `struct tm` is indeterminate before the first `mktime`, which overwrites
it; the embedding starts it at `0`. -/
def getLastSundayOfMonth (fuel : Nat) (year month : Int) : Option Int :=
  let tm : Tm :=
    { tm_year := year - 1900
      tm_mon := month - 1
      tm_mday := 31
      tm_hour := 0
      tm_min := 0
      tm_sec := 0
      tm_isdst := -1
      tm_wday := 0 }
  let tm := (mktime tm).1
  (backToSunday fuel tm).map fun tm => (mktime tm).2

/-- Function `checkForDaylightSavingTime(timestamp)`. -/
def checkForDaylightSavingTime (fuel : Nat) (timestamp : Int) : Option Bool :=
  let timeinfo := localtime timestamp
  let year := timeinfo.tm_year + 1900
  (getLastSundayOfMonth fuel year 3).bind fun marchLastSunday =>
  (getLastSundayOfMonth fuel year 10).bind fun octoberLastSunday =>
  let dstStart := marchLastSunday + 1 * 3600
  let dstEnd := octoberLastSunday + 1 * 3600
  some (decide (dstStart ≤ timestamp ∧ timestamp < dstEnd))

/-! ## Network time -/

/-- Function `connectToWiFi()`. -/
def connectToWiFi (net : Net) (s : State) : State :=
  let s := { s with
    serial := s.serial ++ [SerialMsg.connecting]
    display := Frame.status StatusText.verbindeWiFi }
  if net.wifiAfterConnect then
    { s with
      serial := s.serial ++ [SerialMsg.verbunden]
      display := Frame.status StatusText.wifiVerbunden }
  else
    setInternalTime 12 0 0 net.tConnect
      { s with
        serial := s.serial ++ [SerialMsg.verbindungFehlgeschlagen]
        display := Frame.status StatusText.wifiFehler }

/-- Function `syncTimeWithNTP()`.  The getters of `timeClient` return the time
of day of the client's UTC seconds plus the configured offset. -/
def syncTimeWithNTP (fuel : Nat) (net : Net) (s : State) : Option State :=
  if net.wifiAtSync then
    let s := { s with
      serial := s.serial ++ [SerialMsg.synchronisiere]
      display := Frame.status StatusText.synchronisiereZeit }
    match net.ntp with
    | some reply =>
      let epochTime := reply.epoch
      (checkForDaylightSavingTime fuel epochTime).map fun dst =>
        let s := { s with isDaylightSavingTime := dst }
        let offset := if s.isDaylightSavingTime then daylightTimeOffset else standardTimeOffset
        let localSeconds := reply.epochAfter + offset
        let hour := (localSeconds % 86400) / 3600
        let minute := (localSeconds % 3600) / 60
        let second := localSeconds % 60
        let s := setInternalTime hour minute second net.tSync s
        { s with
          serial := s.serial ++ [SerialMsg.zeitSynchronisiert hour minute second s.isDaylightSavingTime]
          display :=
            Frame.status (if s.isDaylightSavingTime then StatusText.sommerzeit else StatusText.normalzeit) }
    | none =>
      some (setInternalTime 12 0 0 net.tSync
        { s with
          serial := s.serial ++ [SerialMsg.zeitsyncFehlgeschlagen]
          display := Frame.status StatusText.zeitsyncFehlgeschlagen })
  else some s

/-- Function `setup()`; `clk` is the level read by `digitalRead(CLK)`. -/
def setup (fuel : Nat) (clk : Bool) (net : Net) : Option State :=
  let s := { State.init with serial := [SerialMsg.timerReady], lastCLKState := clk }
  syncTimeWithNTP fuel net (connectToWiFi net s)

/-! ## The polling loop -/

/-- Lines 88 to 106 of `loop()`: everything after the reconnect block. -/
def pollInputs (i : Inputs) (s : State) : State :=
  let s := handleStandbyButton i s
  if s.standbyMode then
    showDateTime (updateInternalTime i.now s)
  else if !s.countdownActive && !s.finishedState then
    showSelection (handleButtonStart i.now (handleEncoder i s))
  else if s.countdownActive then
    updateCountdown i.now (handleButtonReset s)
  else if s.finishedState then
    handleButtonReset (handleFinishedScreen i.now s)
  else s

/-- Function `loop()`: one pass.  The result is `none` when the pass does not
return because the fuel of the last-Sunday search ran out. -/
def loop (fuel : Nat) (i : Inputs) (s : State) : Option State :=
  let reconnected : Option State :=
    if !s.standbyMode && !i.wifi then
      if s.standbyMode then
        syncTimeWithNTP fuel i.net (connectToWiFi i.net s)
      else some s
    else some s
  reconnected.map (pollInputs i)

/-- Time of day held in the three clock globals. -/
def State.timeOfDay (s : State) : Int × Int × Int :=
  (s.currentHour, s.currentMinute, s.currentSecond)

/-- Seconds since midnight of the time of day held in the clock globals. -/
def State.secondOfDay (s : State) : Int :=
  s.currentHour * 3600 + s.currentMinute * 60 + s.currentSecond

/-! ## Runs of the polling loop -/

/-- Consecutive passes through `loop()`, one for each element of the list. -/
def runLoop (fuel : Nat) : List Inputs → State → Option State
  | [], s => some s
  | i :: rest, s => (loop fuel i s).bind (runLoop fuel rest)

/-- A state in which `setup()` can leave the sketch. -/
def IsBootState (s : State) : Prop :=
  ∃ (fuel : Nat) (clk : Bool) (net : Net), setup fuel clk net = some s

/-- The passes of a sequence of encoder detents, each given by the pass that
sees the clock line HIGH and the pass that sees it LOW again. -/
def detentPasses : List (Inputs × Inputs) → List Inputs
  | [] => []
  | d :: rest => d.1 :: d.2 :: detentPasses rest

/-- One detent turned with the button released: the first pass reads the clock
line HIGH and the data line at level `dt`, the second reads the clock line LOW. -/
def IsDetent (dt : Bool) (d : Inputs × Inputs) : Prop :=
  d.1.clk = true ∧ d.1.dt = dt ∧ d.1.sw = true ∧ d.2.clk = false ∧ d.2.sw = true

/-- The state `b` has the clock anchor and the daylight saving flag of `a`, and
its serial log is that of `a` followed by countdown messages only. -/
def KeepsClock (a b : State) : Prop :=
  b.timeOffset = a.timeOffset ∧ b.isDaylightSavingTime = a.isDaylightSavingTime
    ∧ ∃ l : List SerialMsg, b.serial = a.serial ++ l
        ∧ ∀ m ∈ l, m = SerialMsg.timerFinished ∨ ∃ k, m = SerialMsg.timerStarted k

/-- The pass `i` from state `s` is evaluated in Selecting mode: after
`handleStandbyButton` the three flags are clear, so `loop()` takes the branch
that calls `handleEncoder`. -/
def RunsEncoder (i : Inputs) (s : State) : Prop :=
  (handleStandbyButton i s).mode = Mode.Selecting

/-- Number of passes of a run in which `buttonPressed` is `true` right after
`handleStandbyButton`. -/
def clickCount (fuel : Nat) : List Inputs → State → Nat
  | [], _ => 0
  | i :: rest, s =>
    (if (handleStandbyButton i s).buttonPressed then 1 else 0)
      + (match loop fuel i s with
         | some s' => clickCount fuel rest s'
         | none => 0)

/-- The flags `countdownActive` and `finishedState` are not both set. -/
def Exclusive (s : State) : Prop := ¬ (s.countdownActive = true ∧ s.finishedState = true)

/-! ## Calendar vocabulary of the daylight saving rule -/

/-- The triple `y`-`m`-`d` names a day of the calendar: converting its day
number back gives the same triple. -/
def IsCivilDate (y m d : Int) : Prop :=
  civilFromDays (daysFromCivil y m d) = { year := y, month := m, day := d }

/-- The day `y`-`m`-`d` is a Sunday. -/
def IsSunday (y m d : Int) : Prop := weekdayFromDays (daysFromCivil y m d) = 0

/-- Calendar definition of the last Sunday of a month: `d` is a day of month
`m` of year `y`, it is a Sunday, and no later day of that month is a Sunday. -/
def IsLastSunday (y m d : Int) : Prop :=
  IsCivilDate y m d ∧ IsSunday y m d ∧
    ∀ d2 : Int, d < d2 → d2 ≤ 31 → IsCivilDate y m d2 → ¬ IsSunday y m d2

/-- Instant of 01:00:00 UTC on the day `y`-`m`-`d`. -/
def oneOClockUTC (y m d : Int) : Int := daysFromCivil y m d * 86400 + 3600

/-- Instant of 00:00:00 UTC on 1 January of year `y`. -/
def startOfYear (y : Int) : Int := daysFromCivil y 1 1 * 86400

/-- The normalised `struct tm` of 00:00:00 UTC on the day `y`-`m`-`d`. -/
def midnightTm (y m d : Int) : Tm :=
  { tm_sec := 0
    tm_min := 0
    tm_hour := 0
    tm_mday := d
    tm_mon := m - 1
    tm_year := y - 1900
    tm_wday := weekdayFromDays (daysFromCivil y m d)
    tm_isdst := 0 }

/-! ## Sample data -/

/-- A network that never comes up. -/
def offlineNet : Net :=
  { wifiAfterConnect := false, wifiAtSync := false, ntp := none, tConnect := 11000, tSync := 11000 }

/-- Standby with the button released, last pressed at 19.7 s. -/
def standbyState : State := { State.init with lastButtonPressTime := 19700 }

/-- A pass at 20 s in which the button line reads LOW. -/
def pressAt20s : Inputs :=
  { now := 20000, clk := false, dt := false, sw := false, wifi := false, net := offlineNet }

/-- A pass at 20.2 s in which the button line reads HIGH again. -/
def releaseAt20s : Inputs :=
  { now := 20200, clk := false, dt := false, sw := true, wifi := false, net := offlineNet }

/-- A pass at 20.399 s in which the button line reads LOW. -/
def pressAgainAt20s : Inputs :=
  { now := 20399, clk := false, dt := false, sw := false, wifi := false, net := offlineNet }

/-- Selecting mode with the first option selected: the button is released and was
last pressed at 10 s. -/
def selectingState : State :=
  { State.init with standbyMode := false, lastButtonPressTime := 10000 }

/-- A one-minute countdown started at 20 s by a press at that instant. -/
def countingState : State :=
  { State.init with
    standbyMode := false
    countdownActive := true
    countdownStartMillis := 20000
    countdownDurationMillis := 60000
    lastButtonPressTime := 20000 }

/-- A ten-minute countdown started at 20 s. -/
def tenMinuteState : State :=
  { State.init with
    standbyMode := false
    selection := 2
    countdownActive := true
    countdownStartMillis := 20000
    countdownDurationMillis := 600000
    lastButtonPressTime := 20000 }

/-- Finished mode entered at 80 s. -/
def finishedAt80s : State :=
  { State.init with
    standbyMode := false
    finishedState := true
    lastBlinkMillis := 80000
    lastButtonPressTime := 20000 }

/-- A pass at instant `now` with the button line at level `sw` and the encoder at rest. -/
def passAt (now : Nat) (sw : Bool) : Inputs :=
  { now := now, clk := false, dt := false, sw := sw, wifi := false, net := offlineNet }

/-- The one-minute countdown of `countingState` with the blink flag left set by
an earlier stay in Finished mode. -/
def countingStateBlinkSet : State := { countingState with finishedBlinkState := true }

/-- A detent turned counter-clockwise (data line LOW) around 30 s. -/
def ccwDetent : Inputs × Inputs :=
  ({ now := 30000, clk := true, dt := false, sw := true, wifi := false, net := offlineNet },
   { now := 30010, clk := false, dt := false, sw := true, wifi := false, net := offlineNet })

/-- A detent turned clockwise (data line HIGH) around 31 s. -/
def cwDetent : Inputs × Inputs :=
  ({ now := 31000, clk := true, dt := true, sw := true, wifi := false, net := offlineNet },
   { now := 31010, clk := false, dt := true, sw := true, wifi := false, net := offlineNet })

/-- A network on which WiFi connects but the time server does not answer. -/
def noNtpNet : Net :=
  { wifiAfterConnect := true, wifiAtSync := true, ntp := none, tConnect := 3000, tSync := 4500 }

/-- A pass at instant `now` with the given levels of the clock, data and button lines. -/
def pollAt (now : Nat) (clk dt sw : Bool) : Inputs :=
  { now := now, clk := clk, dt := dt, sw := sw, wifi := false, net := offlineNet }

/-- Standby entered while the one-minute countdown of `countingState` is pending. -/
def standbyCounting : State := { countingState with standbyMode := true }

/-! # Verification -/

/-! ## General facts -/

/-- The reconnect block at the top of `loop()` never runs: a pass always returns
and its effect is that of lines 88 to 106. -/
theorem loop_eq_pollInputs (fuel : Nat) (i : Inputs) (s : State) :
    loop fuel i s = some (pollInputs i s) := by
  unfold loop
  cases h : s.standbyMode <;> simp

/-- Conversion of a non-negative `int` to `unsigned long`. -/
theorem toU32_natCast (n : Nat) : toU32 (n : Int) = n % 4294967296 := by
  unfold toU32
  omega

/-- Unsigned subtraction without borrow is ordinary subtraction. -/
theorem sub32_of_le (a b : Nat) (hb : b ≤ a) (ha : a < ULONG) : sub32 a b = a - b := by
  unfold sub32 ULONG at *
  omega

/-! ## C1: leaving standby by a double click -/

/-- C1, counterexample.  In the standby state with no countdown pending, a
falling edge 300 ms after the previous one ends the pass in CountingDown, not
in Selecting: the same edge also raises the single-click flag. -/
theorem c1_double_click_starts_countdown :
    standbyState.standbyMode = true ∧ standbyState.lastSWState = true ∧ pressAt20s.sw = false
      ∧ sub32 pressAt20s.now standbyState.lastButtonPressTime < 400
      ∧ (loop 0 pressAt20s standbyState).map State.mode = some Mode.CountingDown
      ∧ (loop 0 pressAt20s standbyState).map State.mode ≠ some Mode.Selecting
      ∧ (loop 0 pressAt20s standbyState).map State.countdownActive = some true := by
  decide

/-- C1, amended.  From any standby state, a pass with a falling edge less than
400 ms after the previous one returns with `standbyMode = false`.  If no
countdown was pending and the finished flag was clear, the pass ends in
CountingDown with a countdown of the selected duration started at that instant;
if only the finished flag was set it ends in Selecting; if a countdown was
pending and has not yet run out it ends in Selecting. -/
theorem c1_standby_double_click (fuel : Nat) (i : Inputs) (s : State)
    (hs : s.standbyMode = true) (hlast : s.lastSWState = true) (hsw : i.sw = false)
    (hdbl : sub32 i.now s.lastButtonPressTime < 400) :
    ∃ s', loop fuel i s = some s' ∧ s'.standbyMode = false
      ∧ (s.countdownActive = false → s.finishedState = false →
          s'.mode = Mode.CountingDown ∧ s'.finishedState = false
          ∧ s'.countdownStartMillis = i.now
          ∧ s'.countdownDurationMillis
              = mul32 (mul32 (toU32 (timerOptionAt s'.selection)) 60) 1000)
      ∧ (s.countdownActive = false → s.finishedState = true → s'.mode = Mode.Selecting)
      ∧ (s.countdownActive = true → s.countdownDurationMillis < ULONG →
          sub32 i.now s.countdownStartMillis < s.countdownDurationMillis →
          s'.mode = Mode.Selecting) := by
  refine ⟨_, loop_eq_pollInputs fuel i s, ?_, ?_, ?_, ?_⟩
  · cases hc : s.countdownActive <;> cases hf : s.finishedState <;>
      simp [pollInputs, handleStandbyButton, handleEncoder, handleButtonStart, handleButtonReset,
        startCountdown, updateCountdown, handleFinishedScreen, showSelection, showRemaining,
        hs, hlast, hsw, hdbl, doubleClickTime, hc, hf]
    all_goals split_ifs <;> simp_all
  · intro hc hf
    simp [pollInputs, handleStandbyButton, handleEncoder, handleButtonStart, handleButtonReset,
        startCountdown, showSelection, State.mode,
        hs, hlast, hsw, hdbl, doubleClickTime, hc, hf]
    split_ifs <;> simp_all
  · intro hc hf
    simp [pollInputs, handleStandbyButton, handleButtonReset, handleFinishedScreen,
        showSelection, State.mode,
        hs, hlast, hsw, hdbl, doubleClickTime, hc, hf]
    split_ifs <;> simp_all
  · intro hc hd he
    have hsub : sub32 s.countdownDurationMillis (sub32 i.now s.countdownStartMillis)
        = s.countdownDurationMillis - sub32 i.now s.countdownStartMillis :=
      sub32_of_le _ _ (Nat.le_of_lt he) hd
    have hpos : s.countdownDurationMillis - sub32 i.now s.countdownStartMillis ≠ 0 := by omega
    cases hf : s.finishedState <;>
      simp [pollInputs, handleStandbyButton, handleButtonReset, updateCountdown,
        showSelection, showRemaining, State.mode,
        hs, hlast, hsw, hdbl, doubleClickTime, hc, hf, he, hsub, hpos]

/-- C1, witness: the double click of the counterexample, from standby with no
countdown pending. -/
theorem c1_standby_double_click_witness :
    standbyState.standbyMode = true ∧ standbyState.lastSWState = true ∧ pressAt20s.sw = false
      ∧ sub32 pressAt20s.now standbyState.lastButtonPressTime < 400
      ∧ ∃ s', loop 0 pressAt20s standbyState = some s' ∧ s'.standbyMode = false
          ∧ s'.mode = Mode.CountingDown ∧ s'.countdownStartMillis = pressAt20s.now :=
  match c1_standby_double_click 0 pressAt20s standbyState (by decide) (by decide) (by decide)
    (by decide) with
  | ⟨s', hl, hsb, hstart, _, _⟩ =>
    ⟨by decide, by decide, by decide, by decide, s', hl, hsb,
      (hstart (by decide) (by decide)).1, (hstart (by decide) (by decide)).2.2.1⟩

/-! ## C2 and C3: the wall clock -/

/-- Milliseconds counted by `updateInternalTime` when `millis()` has advanced by
`e` since the anchor was set at `millis() = t0`: the anchored time of day in
milliseconds plus `e`, as long as that sum fits in 32 bits. -/
theorem elapsed_after_anchor (st : State) (h m s : Nat) (t0 e : Nat)
    (hb : (h * 3600 + m * 60 + s) * 1000 + e < ULONG) :
    sub32 ((t0 + e) % ULONG) (setInternalTime h m s t0 st).timeOffset
      = (h * 3600 + m * 60 + s) * 1000 + e := by
  simp only [setInternalTime, toU32_natCast, sub32, mul32, add32, ULONG] at *
  omega

/-- The three clock fields computed from a count of seconds, as a triple. -/
theorem timeOfDay_updateInternalTime (now : Nat) (st : State) :
    (updateInternalTime now st).timeOfDay
      = (((sub32 now st.timeOffset / 1000 / 3600 % 24 : Nat) : Int),
         ((sub32 now st.timeOffset / 1000 / 60 % 60 : Nat) : Int),
         ((sub32 now st.timeOffset / 1000 % 60 : Nat) : Int)) := rfl

/-- C2.  After `setInternalTime(h, m, s)` at `millis() = t0` with a valid time
of day, `updateInternalTime()` at `millis() = t0` yields `(h, m, s)` for every
`t0` (also when `timeOffset` wraps below zero), and at `millis() = t0 + 1000`
(reduced modulo `2 ^ 32`) it yields the time one second later, 23:59:59
stepping to 00:00:00. -/
theorem c2_wallclock_round_trip (st : State) (h m s : Int) (t0 : Nat)
    (hh : 0 ≤ h ∧ h < 24) (hm : 0 ≤ m ∧ m < 60) (hs : 0 ≤ s ∧ s < 60) :
    (updateInternalTime t0 (setInternalTime h m s t0 st)).timeOfDay = (h, m, s)
    ∧ (updateInternalTime ((t0 + 1000) % ULONG) (setInternalTime h m s t0 st)).timeOfDay
        = (if s < 59 then (h, m, s + 1)
          else if m < 59 then (h, m + 1, 0)
          else if h < 23 then (h + 1, 0, 0)
          else (0, 0, 0)) := by
  obtain ⟨h0, h1⟩ := hh
  obtain ⟨m0, m1⟩ := hm
  obtain ⟨s0, s1⟩ := hs
  lift h to Nat using h0
  lift m to Nat using m0
  lift s to Nat using s0
  have e0 := elapsed_after_anchor st h m s t0 0 (by unfold ULONG; omega)
  have e1 := elapsed_after_anchor st h m s t0 1000 (by unfold ULONG; omega)
  have hself : sub32 t0 (setInternalTime h m s t0 st).timeOffset
      = sub32 ((t0 + 0) % ULONG) (setInternalTime h m s t0 st).timeOffset := by
    simp only [sub32, Nat.add_zero, Nat.mod_mod]
  rw [← hself] at e0
  constructor
  · rw [timeOfDay_updateInternalTime, e0]
    simp only [Prod.mk.injEq]
    refine ⟨?_, ?_, ?_⟩ <;> omega
  · rw [timeOfDay_updateInternalTime, e1]
    split_ifs <;> simp only [Prod.mk.injEq] <;> refine ⟨?_, ?_, ?_⟩ <;> omega

/-- C2, witness: anchoring 23:59:59 one millisecond after power-up, where the
anchor wraps below zero. -/
theorem c2_wallclock_round_trip_witness :
    (updateInternalTime 1 (setInternalTime 23 59 59 1 State.init)).timeOfDay = (23, 59, 59)
    ∧ (updateInternalTime ((1 + 1000) % ULONG) (setInternalTime 23 59 59 1 State.init)).timeOfDay
        = (if (59 : Int) < 59 then (23, 59, 59 + 1)
          else if (59 : Int) < 59 then (23, 59 + 1, 0)
          else if (23 : Int) < 23 then (23 + 1, 0, 0)
          else (0, 0, 0)) :=
  c2_wallclock_round_trip State.init 23 59 59 1 (by decide) (by decide) (by decide)

/-- Seconds since midnight shown after `updateInternalTime`: the elapsed whole
seconds modulo one day. -/
theorem secondOfDay_updateInternalTime (now : Nat) (st : State) :
    (updateInternalTime now st).secondOfDay
      = ((sub32 now st.timeOffset / 1000 % 86400 : Nat) : Int) := by
  simp only [State.secondOfDay, updateInternalTime]
  generalize sub32 now st.timeOffset / 1000 = T
  have h1 : T / 3600 = T / 60 / 60 := by rw [Nat.div_div_eq_div_mul]
  have h2 : T / 86400 = T / 60 / 60 / 24 := by
    rw [Nat.div_div_eq_div_mul, Nat.div_div_eq_div_mul]
  have h3 : T % 86400 = T - 86400 * (T / 86400) := by omega
  rw [h3, h2, h1]
  omega

/-- C3, counterexample.  Anchored to 12:00:00 at `millis() = 1000`, the clock
shows 17:02:47 at `millis() = 4251768295` and 00:00:00 one millisecond later,
where the second of day should be 61367: the 32-bit count of elapsed
milliseconds has wrapped although `millis()` itself has not. -/
theorem c3_clock_wraps_after_49_days :
    (1000 : Nat) ≤ 4251768296
      ∧ (updateInternalTime 4251768295 (setInternalTime 12 0 0 1000 State.init)).timeOfDay
          = (17, 2, 47)
      ∧ (updateInternalTime 4251768296 (setInternalTime 12 0 0 1000 State.init)).timeOfDay
          = (0, 0, 0)
      ∧ (updateInternalTime 4251768296 (setInternalTime 12 0 0 1000 State.init)).secondOfDay
          ≠ ((12 * 3600 + 0 * 60 + 0) + ((4251768296 - 1000 : Nat) : Int) / 1000) % 86400 := by
  decide

/-- C3, amended.  After `setInternalTime(h, m, s)` at instant `t0` with a valid
time of day, and as long as the anchored time of day in milliseconds plus the
elapsed milliseconds `d` stays below `2 ^ 32`, `updateInternalTime()` at instant
`t0 + d` shows the second of day `(h*3600 + m*60 + s + d / 1000) mod 86400`
with fields in range; between two such reads, the later one shows the earlier
one advanced by the whole seconds passed, modulo one day. -/
theorem c3_clock_anchor_bounded (st : State) (h m s : Int) (t0 d1 d2 : Nat)
    (hh : 0 ≤ h ∧ h < 24) (hm : 0 ≤ m ∧ m < 60) (hs : 0 ≤ s ∧ s < 60) (hle : d1 ≤ d2)
    (hb : (h * 3600 + m * 60 + s) * 1000 + (d2 : Int) < 4294967296) :
    (updateInternalTime ((t0 + d2) % ULONG) (setInternalTime h m s t0 st)).secondOfDay
        = (h * 3600 + m * 60 + s + (d2 : Int) / 1000) % 86400
    ∧ (updateInternalTime ((t0 + d2) % ULONG) (setInternalTime h m s t0 st)).timeOfDay
        = (((h * 3600 + m * 60 + s + (d2 : Int) / 1000) / 3600) % 24,
           ((h * 3600 + m * 60 + s + (d2 : Int) / 1000) / 60) % 60,
           (h * 3600 + m * 60 + s + (d2 : Int) / 1000) % 60)
    ∧ (updateInternalTime ((t0 + d2) % ULONG) (setInternalTime h m s t0 st)).secondOfDay
        = ((updateInternalTime ((t0 + d1) % ULONG) (setInternalTime h m s t0 st)).secondOfDay
            + (((d2 / 1000 - d1 / 1000 : Nat)) : Int)) % 86400 := by
  obtain ⟨h0, h1⟩ := hh
  obtain ⟨m0, m1⟩ := hm
  obtain ⟨s0, s1⟩ := hs
  lift h to Nat using h0
  lift m to Nat using m0
  lift s to Nat using s0
  have e1 := elapsed_after_anchor st h m s t0 d1 (by unfold ULONG; omega)
  have e2 := elapsed_after_anchor st h m s t0 d2 (by unfold ULONG; omega)
  refine ⟨?_, ?_, ?_⟩
  · rw [secondOfDay_updateInternalTime, e2]
    omega
  · rw [timeOfDay_updateInternalTime, e2]
    simp only [Prod.mk.injEq]
    refine ⟨?_, ?_, ?_⟩ <;> omega
  · rw [secondOfDay_updateInternalTime, secondOfDay_updateInternalTime, e1, e2]
    omega

/-- C3, witness: anchored to 12:00:00 at one second after power-up, read 90 s
and 100 s later. -/
theorem c3_clock_anchor_bounded_witness :
    (updateInternalTime ((1000 + 100000) % ULONG) (setInternalTime 12 0 0 1000 State.init)).secondOfDay
        = (12 * 3600 + 0 * 60 + 0 + ((100000 : Nat) : Int) / 1000) % 86400
    ∧ (updateInternalTime ((1000 + 100000) % ULONG) (setInternalTime 12 0 0 1000 State.init)).timeOfDay
        = (((12 * 3600 + 0 * 60 + 0 + ((100000 : Nat) : Int) / 1000) / 3600) % 24,
           ((12 * 3600 + 0 * 60 + 0 + ((100000 : Nat) : Int) / 1000) / 60) % 60,
           (12 * 3600 + 0 * 60 + 0 + ((100000 : Nat) : Int) / 1000) % 60)
    ∧ (updateInternalTime ((1000 + 100000) % ULONG) (setInternalTime 12 0 0 1000 State.init)).secondOfDay
        = ((updateInternalTime ((1000 + 90000) % ULONG)
              (setInternalTime 12 0 0 1000 State.init)).secondOfDay
            + (((100000 / 1000 - 90000 / 1000 : Nat)) : Int)) % 86400 :=
  c3_clock_anchor_bounded State.init 12 0 0 1000 90000 100000 (by decide) (by decide)
    (by decide) (by decide) (by decide)

/-! ## Calendar lemmas -/

/-- Day number of a date with the era split off by `/` and `%`. -/
theorem daysFromCivil_eq (y m d : Int) :
    daysFromCivil y m d
      = (if m ≤ 2 then y - 1 else y) / 400 * 146097
        + ((if m ≤ 2 then y - 1 else y) % 400) * 365
        + ((if m ≤ 2 then y - 1 else y) % 400) / 4
        - ((if m ≤ 2 then y - 1 else y) % 400) / 100
        + (153 * (if 2 < m then m - 3 else m + 9) + 2) / 5 + d - 1 - 719468 := by
  simp only [daysFromCivil]
  omega

/-- The day number is linear in the day of the month. -/
theorem daysFromCivil_day (y m d : Int) :
    daysFromCivil y m d = daysFromCivil y m 1 + (d - 1) := by
  simp only [daysFromCivil]
  omega

/-- Date of a day number given by its 400-, 100-, 4- and 1-year cycles and the
day of the March-based year. -/
theorem civilFromDays_of_decomp (era c q r doy : Int)
    (hc0 : 0 ≤ c) (hc3 : c ≤ 3) (hq0 : 0 ≤ q) (hq : q ≤ 24) (hr0 : 0 ≤ r) (hr3 : r ≤ 3)
    (hd0 : 0 ≤ doy) (hd : doy ≤ 364 ∨ (doy = 365 ∧ r = 3 ∧ (q ≤ 23 ∨ c = 3))) :
    civilFromDays (era * 146097 + c * 36524 + q * 1461 + r * 365 + doy - 719468) =
      { year := if (if (5 * doy + 2) / 153 < 10 then (5 * doy + 2) / 153 + 3 else (5 * doy + 2) / 153 - 9) ≤ 2
                then era * 400 + (c * 100 + q * 4 + r) + 1 else era * 400 + (c * 100 + q * 4 + r),
        month := if (5 * doy + 2) / 153 < 10 then (5 * doy + 2) / 153 + 3 else (5 * doy + 2) / 153 - 9,
        day := doy - (153 * ((5 * doy + 2) / 153) + 2) / 5 + 1 } := by
  have h1 : (era * 146097 + c * 36524 + q * 1461 + r * 365 + doy - 719468 + 719468) / 146097 = era := by
    omega
  have h2 : (era * 146097 + c * 36524 + q * 1461 + r * 365 + doy - 719468 + 719468) % 146097
      = c * 36524 + q * 1461 + r * 365 + doy := by omega
  have h3 : min ((c * 36524 + q * 1461 + r * 365 + doy) / 36524) 3 = c := by omega
  have h4 : (c * 36524 + q * 1461 + r * 365 + doy - c * 36524) / 1461 = q := by omega
  have h5 : (c * 36524 + q * 1461 + r * 365 + doy - c * 36524) % 1461 = r * 365 + doy := by omega
  have h6 : min ((r * 365 + doy) / 365) 3 = r := by omega
  have h7 : r * 365 + doy - r * 365 = doy := by omega
  simp only [civilFromDays, h1, h2, h3, h4, h5, h6, h7]

/-- Every day number splits into cycles. -/
theorem exists_decomp (z : Int) :
    ∃ era c q r doy : Int, 0 ≤ c ∧ c ≤ 3 ∧ 0 ≤ q ∧ q ≤ 24 ∧ 0 ≤ r ∧ r ≤ 3 ∧ 0 ≤ doy
      ∧ (doy ≤ 364 ∨ (doy = 365 ∧ r = 3 ∧ (q ≤ 23 ∨ c = 3)))
      ∧ z = era * 146097 + c * 36524 + q * 1461 + r * 365 + doy - 719468 := by
  refine ⟨(z + 719468) / 146097, min ((z + 719468) % 146097 / 36524) 3,
    ((z + 719468) % 146097 - min ((z + 719468) % 146097 / 36524) 3 * 36524) / 1461,
    min (((z + 719468) % 146097 - min ((z + 719468) % 146097 / 36524) 3 * 36524) % 1461 / 365) 3,
    ((z + 719468) % 146097 - min ((z + 719468) % 146097 / 36524) 3 * 36524) % 1461
      - min (((z + 719468) % 146097 - min ((z + 719468) % 146097 / 36524) 3 * 36524) % 1461 / 365) 3 * 365,
    ?_, ?_, ?_, ?_, ?_, ?_, ?_, ?_, ?_⟩ <;> omega

/-- Converting a day number to a date and back returns the day number; the
month is in `1..12` and the day in `1..31`. -/
theorem daysFromCivil_civilFromDays (z : Int) :
    daysFromCivil (civilFromDays z).year (civilFromDays z).month (civilFromDays z).day = z
      ∧ 1 ≤ (civilFromDays z).month ∧ (civilFromDays z).month ≤ 12
      ∧ 1 ≤ (civilFromDays z).day ∧ (civilFromDays z).day ≤ 31 := by
  obtain ⟨era, c, q, r, doy, hc0, hc3, hq0, hq, hr0, hr3, hd0, hd, rfl⟩ := exists_decomp z
  rw [civilFromDays_of_decomp era c q r doy hc0 hc3 hq0 hq hr0 hr3 hd0 hd]
  simp only []
  obtain ⟨mp, hmp⟩ : ∃ mp, mp = (5 * doy + 2) / 153 := ⟨_, rfl⟩
  rw [← hmp]
  have hmp0 : 0 ≤ mp := by omega
  have hmp11 : mp ≤ 11 := by omega
  rw [daysFromCivil_eq]
  by_cases h10 : mp < 10
  · simp only [h10, if_true]
    have e1 : ¬ (mp + 3 ≤ 2) := by omega
    have e2 : (2 : Int) < mp + 3 := by omega
    simp only [e1, e2, if_true, if_false]
    refine ⟨?_, ?_, ?_, ?_, ?_⟩ <;> omega
  · simp only [h10, if_false]
    have e1 : mp - 9 ≤ 2 := by omega
    have e2 : ¬ ((2 : Int) < mp - 9) := by omega
    simp only [e1, e2, if_true, if_false]
    refine ⟨?_, ?_, ?_, ?_, ?_⟩ <;> omega

/-- Every day `1..31` of March converts to its day number and back. -/
theorem civilFromDays_daysFromCivil_march (y d : Int) (h1 : 1 ≤ d) (h2 : d ≤ 31) :
    civilFromDays (daysFromCivil y 3 d) = { year := y, month := 3, day := d } := by
  have e : daysFromCivil y 3 d
      = y / 400 * 146097 + (y % 400 / 100) * 36524 + (y % 100 / 4) * 1461 + (y % 4) * 365
        + (d - 1) - 719468 := by
    rw [daysFromCivil_eq]
    simp only [show ¬ ((3 : Int) ≤ 2) by decide, show (2 : Int) < 3 by decide, if_true, if_false]
    omega
  rw [e, civilFromDays_of_decomp _ _ _ _ _ (by omega) (by omega) (by omega) (by omega) (by omega)
    (by omega) (by omega) (by omega)]
  have e0 : (5 * (d - 1) + 2) / 153 = 0 := by omega
  simp only [e0]
  simp only [Civil.mk.injEq]
  refine ⟨?_, ?_, ?_⟩ <;> omega

/-- Every day `1..31` of October converts to its day number and back. -/
theorem civilFromDays_daysFromCivil_october (y d : Int) (h1 : 1 ≤ d) (h2 : d ≤ 31) :
    civilFromDays (daysFromCivil y 10 d) = { year := y, month := 10, day := d } := by
  have e : daysFromCivil y 10 d
      = y / 400 * 146097 + (y % 400 / 100) * 36524 + (y % 100 / 4) * 1461 + (y % 4) * 365
        + (214 + (d - 1)) - 719468 := by
    rw [daysFromCivil_eq]
    simp only [show ¬ ((10 : Int) ≤ 2) by decide, show (2 : Int) < 10 by decide, if_true, if_false]
    omega
  rw [e, civilFromDays_of_decomp _ _ _ _ _ (by omega) (by omega) (by omega) (by omega) (by omega)
    (by omega) (by omega) (by omega)]
  have e0 : (5 * (214 + (d - 1)) + 2) / 153 = 7 := by omega
  simp only [e0]
  simp only [Civil.mk.injEq]
  refine ⟨?_, ?_, ?_⟩ <;> omega

/-- A year has at least 365 days. -/
theorem yearStart_step (y : Int) :
    daysFromCivil y 1 1 + 365 ≤ daysFromCivil (y + 1) 1 1 := by
  rw [daysFromCivil_eq, daysFromCivil_eq]
  simp only [show ((1 : Int) ≤ 2) by decide, show ¬ (2 : Int) < 1 by decide, if_true, if_false]
  omega

/-- The first day of the year `n` years on lies at least `365 * n` days later. -/
theorem yearStart_mono_nat (y : Int) (n : Nat) :
    daysFromCivil y 1 1 + 365 * n ≤ daysFromCivil (y + n) 1 1 := by
  induction n with
  | zero => simp
  | succ k ih =>
    have := yearStart_step (y + k)
    push_cast
    rw [← add_assoc]
    omega

/-- The first days of the years are strictly increasing. -/
theorem yearStart_lt (y1 y2 : Int) (h : y1 < y2) :
    daysFromCivil y1 1 1 < daysFromCivil y2 1 1 := by
  obtain ⟨n, hn⟩ : ∃ n : Nat, y2 = y1 + n := ⟨(y2 - y1).toNat, by omega⟩
  have := yearStart_mono_nat y1 n
  rw [hn]
  omega

/-- A day lies between 1 January of its year and 1 January of the next. -/
theorem year_bounds (z : Int) :
    daysFromCivil (civilFromDays z).year 1 1 ≤ z
      ∧ z < daysFromCivil ((civilFromDays z).year + 1) 1 1 := by
  obtain ⟨hz, hm1, hm12, hd1, hd31⟩ := daysFromCivil_civilFromDays z
  generalize (civilFromDays z).year = Y at *
  generalize (civilFromDays z).month = m at *
  generalize (civilFromDays z).day = d at *
  have hs := yearStart_step (Y - 1)
  have hs2 := yearStart_step Y
  rw [daysFromCivil_eq] at hz hs hs2
  rw [daysFromCivil_eq] at hs hs2
  rw [daysFromCivil_eq, daysFromCivil_eq]
  simp only [show ((1 : Int) ≤ 2) by decide, show ¬ (2 : Int) < 1 by decide, if_true, if_false,
    sub_add_cancel] at *
  by_cases hm : m ≤ 2
  · have hm' : ¬ (2 < m) := by omega
    simp only [hm, hm', if_true, if_false] at hz
    constructor <;> omega
  · have hm' : 2 < m := by omega
    simp only [hm, hm', if_true, if_false] at hz
    constructor <;> omega

/-- A day between 1 January of `Y` and 1 January of `Y + 1` has year `Y`. -/
theorem year_unique (z Y : Int) (h1 : daysFromCivil Y 1 1 ≤ z)
    (h2 : z < daysFromCivil (Y + 1) 1 1) : (civilFromDays z).year = Y := by
  obtain ⟨b1, b2⟩ := year_bounds z
  rcases lt_trichotomy (civilFromDays z).year Y with h | h | h
  · have : (civilFromDays z).year + 1 ≤ Y := by omega
    rcases this.lt_or_eq with h' | h'
    · have := yearStart_lt _ _ h'
      omega
    · rw [h'] at b2
      omega
  · exact h
  · have : Y + 1 ≤ (civilFromDays z).year := by omega
    rcases this.lt_or_eq with h' | h'
    · have := yearStart_lt _ _ h'
      omega
    · rw [← h'] at b1
      omega

/-- March and October have 31 days. -/
theorem isCivilDate_of_31 (y m d : Int) (hm : m = 3 ∨ m = 10) (h1 : 1 ≤ d) (h2 : d ≤ 31) :
    IsCivilDate y m d := by
  rcases hm with rfl | rfl
  · exact civilFromDays_daysFromCivil_march y d h1 h2
  · exact civilFromDays_daysFromCivil_october y d h1 h2

/-- Broken-down time of midnight of a calendar day. -/
theorem gmtime_midnight (y m d : Int) (hv : IsCivilDate y m d) :
    gmtime (daysFromCivil y m d * 86400) = midnightTm y m d := by
  have e1 : daysFromCivil y m d * 86400 / 86400 = daysFromCivil y m d := by omega
  have e2 : daysFromCivil y m d * 86400 % 86400 = 0 := by omega
  unfold IsCivilDate at hv
  simp [gmtime, midnightTm, e1, e2, hv]

/-- Instant of a `struct tm` holding midnight of a day of March or October;
the day of the month may be out of range. -/
theorem timegm_midnight (y m d wd dst : Int) (hm : m = 3 ∨ m = 10) :
    timegm { tm_sec := 0, tm_min := 0, tm_hour := 0, tm_mday := d, tm_mon := m - 1,
             tm_year := y - 1900, tm_wday := wd, tm_isdst := dst }
      = daysFromCivil y m d * 86400 := by
  have e := daysFromCivil_day y m d
  rcases hm with rfl | rfl <;> simp [timegm] <;> omega

/-- Result of `mktime` on midnight of a day of March or October: the weekday is
filled in and the other fields are unchanged. -/
theorem mktime_midnight (y m d wd dst : Int) (hm : m = 3 ∨ m = 10) (h1 : 1 ≤ d) (h2 : d ≤ 31) :
    mktime { tm_sec := 0, tm_min := 0, tm_hour := 0, tm_mday := d, tm_mon := m - 1,
             tm_year := y - 1900, tm_wday := wd, tm_isdst := dst }
      = (midnightTm y m d, daysFromCivil y m d * 86400) := by
  unfold mktime
  rw [timegm_midnight y m d wd dst hm, gmtime_midnight y m d (isCivilDate_of_31 y m d hm h1 h2)]

/-- The day before a day that is not a Sunday has the previous weekday number. -/
theorem weekday_pred (y m d : Int) (h : weekdayFromDays (daysFromCivil y m d) ≠ 0) :
    weekdayFromDays (daysFromCivil y m (d - 1)) = weekdayFromDays (daysFromCivil y m d) - 1 := by
  have e1 := daysFromCivil_day y m d
  have e2 := daysFromCivil_day y m (d - 1)
  unfold weekdayFromDays at *
  omega

/-- The backward loop started on a day with weekday number `k` makes exactly `k`
steps and stops `k` days earlier. -/
theorem backToSunday_midnight (y m : Int) (hm : m = 3 ∨ m = 10) (k : Nat) :
    ∀ (fuel : Nat) (d : Int), weekdayFromDays (daysFromCivil y m d) = k → (k : Int) < d → d ≤ 31 →
      backToSunday fuel (midnightTm y m d)
        = if k ≤ fuel then some (midnightTm y m (d - k)) else none := by
  induction k with
  | zero =>
    intro fuel d hw _ _
    unfold backToSunday
    simp [midnightTm, hw]
  | succ k ih =>
    intro fuel d hw hk hd
    have hne : weekdayFromDays (daysFromCivil y m d) ≠ 0 := by rw [hw]; omega
    have hp := weekday_pred y m d hne
    unfold backToSunday
    cases fuel with
    | zero => simp [midnightTm, hne]
    | succ f =>
      have hstep : (mktime { midnightTm y m d with tm_mday := (midnightTm y m d).tm_mday - 1 }).1
          = midnightTm y m (d - 1) := by
        have := mktime_midnight y m (d - 1) (weekdayFromDays (daysFromCivil y m d)) 0 hm
          (by omega) (by omega)
        simp only [midnightTm] at this ⊢
        rw [this]
      have hmd : (midnightTm y m d).tm_wday ≠ 0 := hne
      simp only [hmd, ne_eq, not_false_eq_true, if_true, hstep]
      rw [ih f (d - 1) (by rw [hp, hw]; push_cast; omega) (by push_cast at hk; omega) (by omega)]
      have e : d - 1 - (k : Int) = d - ((k + 1 : Nat) : Int) := by push_cast; omega
      rw [e]
      simp

/-- Weekday numbers are `0..6`. -/
theorem weekday_range (z : Int) : 0 ≤ weekdayFromDays z ∧ weekdayFromDays z ≤ 6 := by
  unfold weekdayFromDays
  omega

/-- Weekday number `k` days earlier. -/
theorem weekday_sub (y m d k : Int) :
    weekdayFromDays (daysFromCivil y m (d - k)) = (weekdayFromDays (daysFromCivil y m d) - k) % 7 := by
  have e1 := daysFromCivil_day y m d
  have e2 := daysFromCivil_day y m (d - k)
  unfold weekdayFromDays
  omega

/-- A calendar day has a day of the month in `1..31`. -/
theorem day_le_31_of_civil (y m d : Int) (h : IsCivilDate y m d) : 1 ≤ d ∧ d ≤ 31 := by
  obtain ⟨_, _, _, h1, h2⟩ := daysFromCivil_civilFromDays (daysFromCivil y m d)
  unfold IsCivilDate at h
  rw [h] at h1 h2
  exact ⟨h1, h2⟩

/-- The Sunday found by stepping back from the 31st is the last Sunday. -/
theorem isLastSunday_back (y m : Int) (hm : m = 3 ∨ m = 10) :
    IsLastSunday y m (31 - weekdayFromDays (daysFromCivil y m 31)) := by
  obtain ⟨w0, w6⟩ := weekday_range (daysFromCivil y m 31)
  refine ⟨isCivilDate_of_31 y m _ hm (by omega) (by omega), ?_, ?_⟩
  · unfold IsSunday
    rw [weekday_sub]
    omega
  · intro d2 h1 h2 _ hs
    unfold IsSunday at hs
    have e := weekday_sub y m 31 (31 - d2)
    have e' : (31 : Int) - (31 - d2) = d2 := by omega
    rw [e', hs] at e
    omega

/-- A month has at most one last Sunday. -/
theorem isLastSunday_unique (y m d1 d2 : Int) (h1 : IsLastSunday y m d1)
    (h2 : IsLastSunday y m d2) : d1 = d2 := by
  obtain ⟨v1, s1, n1⟩ := h1
  obtain ⟨v2, s2, n2⟩ := h2
  have b1 := day_le_31_of_civil y m d1 v1
  have b2 := day_le_31_of_civil y m d2 v2
  rcases lt_trichotomy d1 d2 with h | h | h
  · exact absurd s2 (n1 d2 h b2.2 v2)
  · exact h
  · exact absurd s1 (n2 d1 h b1.2 v1)

/-- Result of `getLastSundayOfMonth` for March and October in terms of the
weekday number `w` of the 31st: `w` steps are needed and the result is midnight
of day `31 - w`. -/
theorem getLastSundayOfMonth_eq (y m : Int) (hm : m = 3 ∨ m = 10) (fuel : Nat) :
    getLastSundayOfMonth fuel y m
      = if weekdayFromDays (daysFromCivil y m 31) ≤ (fuel : Int)
        then some (daysFromCivil y m (31 - weekdayFromDays (daysFromCivil y m 31)) * 86400)
        else none := by
  obtain ⟨w0, w6⟩ := weekday_range (daysFromCivil y m 31)
  obtain ⟨k, hk⟩ : ∃ k : Nat, weekdayFromDays (daysFromCivil y m 31) = k :=
    ⟨(weekdayFromDays (daysFromCivil y m 31)).toNat, by omega⟩
  unfold getLastSundayOfMonth
  simp only [mktime_midnight y m 31 0 (-1) hm (by omega) (by omega)]
  rw [backToSunday_midnight y m hm k fuel 31 hk (by omega) (by omega), hk]
  by_cases hf : k ≤ fuel
  · have hf' : (k : Int) ≤ (fuel : Int) := by omega
    simp only [hf, hf', if_true, Option.map_some']
    have := mktime_midnight y m (31 - k) (weekdayFromDays (daysFromCivil y m (31 - k))) 0 hm
      (by omega) (by omega)
    simp only [midnightTm] at this ⊢
    rw [this]
  · have hf' : ¬ ((k : Int) ≤ (fuel : Int)) := by omega
    simp only [hf, hf', if_false, Option.map_none']

/-- The last-Sunday search returns midnight of the last Sunday once the fuel
covers six steps. -/
theorem getLastSundayOfMonth_of_isLastSunday (y m d : Int) (hm : m = 3 ∨ m = 10)
    (h : IsLastSunday y m d) (fuel : Nat) (hf : 6 ≤ fuel) :
    getLastSundayOfMonth fuel y m = some (daysFromCivil y m d * 86400) := by
  obtain ⟨_, w6⟩ := weekday_range (daysFromCivil y m 31)
  rw [getLastSundayOfMonth_eq y m hm fuel, if_pos (by omega),
    isLastSunday_unique y m _ d (isLastSunday_back y m hm) h]

/-- The year read by `checkForDaylightSavingTime` is the calendar year of the instant. -/
theorem localtime_year (y t : Int) (h1 : startOfYear y ≤ t) (h2 : t < startOfYear (y + 1)) :
    (localtime t).tm_year + 1900 = y := by
  unfold startOfYear at h1 h2
  have := year_unique (t / 86400) y (by omega) (by omega)
  simp only [localtime, gmtime, this]
  omega

/-- Value of `checkForDaylightSavingTime` at an instant of year `y`. -/
theorem checkForDaylightSavingTime_eq (y dM dO t : Int) (fuel : Nat) (hM : IsLastSunday y 3 dM)
    (hO : IsLastSunday y 10 dO) (hf : 6 ≤ fuel) (h1 : startOfYear y ≤ t)
    (h2 : t < startOfYear (y + 1)) :
    checkForDaylightSavingTime fuel t
      = some (decide (oneOClockUTC y 3 dM ≤ t ∧ t < oneOClockUTC y 10 dO)) := by
  unfold checkForDaylightSavingTime
  simp only [localtime_year y t h1 h2,
    getLastSundayOfMonth_of_isLastSunday y 3 dM (Or.inl rfl) hM fuel hf,
    getLastSundayOfMonth_of_isLastSunday y 10 dO (Or.inr rfl) hO fuel hf,
    Option.some_bind, oneOClockUTC, one_mul]

/-- Position of the days of March and October inside their year, in day numbers. -/
theorem march_october_in_year (y d : Int) (h1 : 1 ≤ d) (h2 : d ≤ 31) :
    daysFromCivil y 1 1 + 59 ≤ daysFromCivil y 3 d
      ∧ daysFromCivil y 3 31 + 184 ≤ daysFromCivil y 10 d
      ∧ daysFromCivil y 10 d + 62 ≤ daysFromCivil (y + 1) 1 1 := by
  have hs := yearStart_step y
  rw [daysFromCivil_eq] at hs
  rw [daysFromCivil_eq] at hs
  rw [daysFromCivil_eq, daysFromCivil_eq y 3 d, daysFromCivil_eq y 3 31, daysFromCivil_eq y 10 d,
    daysFromCivil_eq (y + 1) 1 1]
  simp only [show ((1 : Int) ≤ 2) by decide, show ¬ (2 : Int) < 1 by decide,
    show ¬ ((3 : Int) ≤ 2) by decide, show (2 : Int) < 3 by decide,
    show ¬ ((10 : Int) ≤ 2) by decide, show (2 : Int) < 10 by decide, if_true, if_false,
    add_sub_cancel_right] at *
  refine ⟨?_, ?_, ?_⟩ <;> omega

/-! ## C4: the daylight saving rule -/

/-- C4.  With `localtime` and `mktime` as UTC calendar conversions and fuel for
six steps of the last-Sunday search: for every instant `t` of calendar year
`y`, `checkForDaylightSavingTime(t)` returns true iff `t` lies from 01:00:00
UTC on the last Sunday of March `y` (inclusive) to 01:00:00 UTC on the last
Sunday of October `y` (exclusive), last Sunday in the calendar sense.  It is
true at the March boundary and false one second before, false at the October
boundary and true one second before.  It is constant on the summer interval
and on the winter interval that runs into the next year, and the offset chosen
from it is 3600 or 7200. -/
theorem c4_dst_rule (y dM dO : Int) (fuel : Nat) (hM : IsLastSunday y 3 dM)
    (hO : IsLastSunday y 10 dO) (hf : 6 ≤ fuel) :
    (∀ t : Int, startOfYear y ≤ t → t < startOfYear (y + 1) →
        checkForDaylightSavingTime fuel t
          = some (decide (oneOClockUTC y 3 dM ≤ t ∧ t < oneOClockUTC y 10 dO)))
    ∧ checkForDaylightSavingTime fuel (oneOClockUTC y 3 dM) = some true
    ∧ checkForDaylightSavingTime fuel (oneOClockUTC y 3 dM - 1) = some false
    ∧ checkForDaylightSavingTime fuel (oneOClockUTC y 10 dO) = some false
    ∧ checkForDaylightSavingTime fuel (oneOClockUTC y 10 dO - 1) = some true
    ∧ (∀ t : Int, oneOClockUTC y 3 dM ≤ t → t < oneOClockUTC y 10 dO →
        checkForDaylightSavingTime fuel t = some true)
    ∧ (∀ dN t : Int, IsLastSunday (y + 1) 3 dN →
        oneOClockUTC y 10 dO ≤ t → t < oneOClockUTC (y + 1) 3 dN →
        checkForDaylightSavingTime fuel t = some false)
    ∧ (∀ dst : Bool,
        (if dst then daylightTimeOffset else standardTimeOffset) = 3600
          ∨ (if dst then daylightTimeOffset else standardTimeOffset) = 7200) := by
  have key := fun t => checkForDaylightSavingTime_eq y dM dO t fuel hM hO hf
  obtain ⟨bM1, bM31⟩ := day_le_31_of_civil y 3 dM hM.1
  obtain ⟨bO1, bO31⟩ := day_le_31_of_civil y 10 dO hO.1
  obtain ⟨p1, _, _⟩ := march_october_in_year y dM bM1 bM31
  obtain ⟨_, p2, p3⟩ := march_october_in_year y dO bO1 bO31
  have p4 := daysFromCivil_day y 3 dM
  have p5 := daysFromCivil_day y 3 31
  have summer : ∀ t : Int, oneOClockUTC y 3 dM ≤ t → t < oneOClockUTC y 10 dO →
      checkForDaylightSavingTime fuel t = some true := by
    intro t h1 h2
    rw [key t (by unfold startOfYear oneOClockUTC at *; omega)
      (by unfold startOfYear oneOClockUTC at *; omega)]
    simp [h1, h2]
  refine ⟨fun t h1 h2 => key t h1 h2, ?_, ?_, ?_, ?_, summer, ?_, ?_⟩
  · exact summer _ (le_refl _) (by unfold oneOClockUTC; omega)
  · rw [key _ (by unfold startOfYear oneOClockUTC at *; omega)
      (by unfold startOfYear oneOClockUTC at *; omega)]
    simp
  · rw [key _ (by unfold startOfYear oneOClockUTC at *; omega)
      (by unfold startOfYear oneOClockUTC at *; omega)]
    simp
  · exact summer _ (by unfold oneOClockUTC; omega) (by omega)
  · intro dN t hN h1 h2
    obtain ⟨bN1, bN31⟩ := day_le_31_of_civil (y + 1) 3 dN hN.1
    obtain ⟨q1, _, _⟩ := march_october_in_year (y + 1) dN bN1 bN31
    obtain ⟨_, q2, q3⟩ := march_october_in_year (y + 1) 31 (by omega) (by omega)
    have q4 := daysFromCivil_day (y + 1) 3 dN
    have q5 := daysFromCivil_day (y + 1) 3 31
    by_cases hy : t < startOfYear (y + 1)
    · rw [key t (by unfold startOfYear oneOClockUTC at *; omega) hy]
      simp only [decide_eq_false_iff_not, Option.some.injEq, not_and, not_lt]
      intro _
      exact h1
    · rw [checkForDaylightSavingTime_eq (y + 1) dN _ t fuel hN
        (isLastSunday_back (y + 1) 10 (Or.inr rfl)) hf (by omega)
        (by unfold startOfYear oneOClockUTC at *; omega)]
      simp only [decide_eq_false_iff_not, Option.some.injEq, not_and, not_lt]
      intro h
      omega
  · intro dst
    cases dst <;> simp [daylightTimeOffset, standardTimeOffset]

/-- The last Sunday of March 2024 is the 31st. -/
theorem isLastSunday_march_2024 : IsLastSunday 2024 3 31 := by
  refine ⟨by unfold IsCivilDate; decide, by unfold IsSunday; decide, ?_⟩
  intro d2 h1 h2
  omega

/-- The last Sunday of October 2024 is the 27th. -/
theorem isLastSunday_october_2024 : IsLastSunday 2024 10 27 := by
  refine ⟨by unfold IsCivilDate; decide, by unfold IsSunday; decide, ?_⟩
  intro d2 h1 h2 _
  unfold IsSunday
  interval_cases d2 <;> decide

/-- C4, witness: the year 2024, whose March boundary is the instant 1711846800. -/
theorem c4_dst_rule_witness :
    IsLastSunday 2024 3 31 ∧ IsLastSunday 2024 10 27 ∧ 6 ≤ 6
      ∧ oneOClockUTC 2024 3 31 = 1711846800
      ∧ checkForDaylightSavingTime 6 1711846800
          = some (decide (oneOClockUTC 2024 3 31 ≤ 1711846800
              ∧ 1711846800 < oneOClockUTC 2024 10 27))
      ∧ checkForDaylightSavingTime 6 (oneOClockUTC 2024 3 31) = some true
      ∧ checkForDaylightSavingTime 6 (oneOClockUTC 2024 3 31 - 1) = some false
      ∧ checkForDaylightSavingTime 6 (oneOClockUTC 2024 10 27) = some false
      ∧ checkForDaylightSavingTime 6 (oneOClockUTC 2024 10 27 - 1) = some true :=
  ⟨isLastSunday_march_2024, isLastSunday_october_2024, by decide, by decide,
    (c4_dst_rule 2024 31 27 6 isLastSunday_march_2024 isLastSunday_october_2024
      (by decide)).1 1711846800 (by decide) (by decide),
    (c4_dst_rule 2024 31 27 6 isLastSunday_march_2024 isLastSunday_october_2024
      (by decide)).2.1,
    (c4_dst_rule 2024 31 27 6 isLastSunday_march_2024 isLastSunday_october_2024
      (by decide)).2.2.1,
    (c4_dst_rule 2024 31 27 6 isLastSunday_march_2024 isLastSunday_october_2024
      (by decide)).2.2.2.1,
    (c4_dst_rule 2024 31 27 6 isLastSunday_march_2024 isLastSunday_october_2024
      (by decide)).2.2.2.2.1⟩

/-! ## C5: the last-Sunday search -/

/-- C5.  With `mktime` as UTC normalisation that fills in `tm_wday`, for every
year `y` and month 3 or 10, `getLastSundayOfMonth(y, month)` leaves its loop
after `31 - d` backward steps, at most six, and returns the instant of 00:00:00
UTC of day `d` of that month of year `y`, where `25 ≤ d ≤ 31`, the day is a
Sunday and no later day of the month is a Sunday. -/
theorem c5_last_sunday_search (y m : Int) (hm : m = 3 ∨ m = 10) :
    ∃ d : Int, 25 ≤ d ∧ d ≤ 31 ∧ IsLastSunday y m d
      ∧ (∀ fuel : Nat, getLastSundayOfMonth fuel y m
          = if 31 - d ≤ (fuel : Int) then some (daysFromCivil y m d * 86400) else none)
      ∧ getLastSundayOfMonth 6 y m = some (daysFromCivil y m d * 86400)
      ∧ gmtime (daysFromCivil y m d * 86400)
          = { tm_sec := 0, tm_min := 0, tm_hour := 0, tm_mday := d, tm_mon := m - 1,
              tm_year := y - 1900, tm_wday := 0, tm_isdst := 0 } := by
  obtain ⟨w0, w6⟩ := weekday_range (daysFromCivil y m 31)
  have hl := isLastSunday_back y m hm
  refine ⟨31 - weekdayFromDays (daysFromCivil y m 31), by omega, by omega, hl, ?_, ?_, ?_⟩
  · intro fuel
    rw [getLastSundayOfMonth_eq y m hm fuel]
    simp only [sub_sub_cancel]
  · exact getLastSundayOfMonth_of_isLastSunday y m _ hm hl 6 (le_refl 6)
  · rw [gmtime_midnight y m _ hl.1, midnightTm, hl.2.1]

/-- C5, witness: March 2024. -/
theorem c5_last_sunday_search_witness :
    ∃ d : Int, 25 ≤ d ∧ d ≤ 31 ∧ IsLastSunday 2024 3 d
      ∧ (∀ fuel : Nat, getLastSundayOfMonth fuel 2024 3
          = if 31 - d ≤ (fuel : Int) then some (daysFromCivil 2024 3 d * 86400) else none)
      ∧ getLastSundayOfMonth 6 2024 3 = some (daysFromCivil 2024 3 d * 86400)
      ∧ gmtime (daysFromCivil 2024 3 d * 86400)
          = { tm_sec := 0, tm_min := 0, tm_hour := 0, tm_mday := d, tm_mon := 3 - 1,
              tm_year := 2024 - 1900, tm_wday := 0, tm_isdst := 0 } :=
  c5_last_sunday_search 2024 3 (Or.inl rfl)

/-! ## C6: the double-click threshold -/

/-- Fields that the mode handlers leave as `handleStandbyButton` set them. -/
theorem pollInputs_button_fields (i : Inputs) (s : State) :
    (pollInputs i s).standbyMode = (handleStandbyButton i s).standbyMode
      ∧ (pollInputs i s).lastButtonPressTime = (handleStandbyButton i s).lastButtonPressTime
      ∧ (pollInputs i s).lastSWState = (handleStandbyButton i s).lastSWState := by
  simp only [pollInputs]
  split_ifs <;>
    simp [showDateTime, updateInternalTime, showSelection, handleButtonStart, handleEncoder,
      startCountdown, updateCountdown, handleButtonReset, handleFinishedScreen, showRemaining] <;>
    split_ifs <;> simp

/-- Effect of `handleStandbyButton` on the fields it owns. -/
theorem handleStandbyButton_fields (i : Inputs) (s : State) :
    (handleStandbyButton i s).standbyMode
        = (if (s.lastSWState = true ∧ i.sw = false)
              ∧ sub32 i.now s.lastButtonPressTime < 400 then !s.standbyMode else s.standbyMode)
      ∧ (handleStandbyButton i s).buttonPressed = decide (s.lastSWState = true ∧ i.sw = false)
      ∧ (handleStandbyButton i s).lastButtonPressTime
          = (if s.lastSWState = true ∧ i.sw = false then i.now else s.lastButtonPressTime)
      ∧ (handleStandbyButton i s).lastSWState = i.sw := by
  simp only [handleStandbyButton, doubleClickTime]
  split_ifs <;> simp_all

/-- Unsigned difference between `millis()` now and `g` milliseconds earlier. -/
theorem sub32_add (n g : Nat) (hg : g < ULONG) : sub32 ((n + g) % ULONG) n = g := by
  unfold sub32 ULONG at *
  omega

/-- C6.  In every pass, `standbyMode` is flipped iff the button line shows a
falling edge (previous sample HIGH, current LOW) and the 32-bit difference
between `millis()` and the instant of the previous falling edge, which the
pass finds in `lastButtonPressTime`, is below 400; otherwise it is unchanged,
whatever the encoder lines read.  Every falling edge raises the single-click
flag and stores its instant.  Hence of two falling edges `g` milliseconds apart,
with a release in between, the second flips `standbyMode` iff `g < 400`, and
both raise the single-click flag. -/
theorem c6_double_click_threshold (fuel : Nat) (s : State) (i iB iC : Inputs) (g : Nat) :
    (∃ s', loop fuel i s = some s'
      ∧ s'.standbyMode
          = (if (s.lastSWState = true ∧ i.sw = false)
                ∧ sub32 i.now s.lastButtonPressTime < 400 then !s.standbyMode
             else s.standbyMode)
      ∧ (handleStandbyButton i s).buttonPressed = decide (s.lastSWState = true ∧ i.sw = false)
      ∧ s'.lastButtonPressTime
          = (if s.lastSWState = true ∧ i.sw = false then i.now else s.lastButtonPressTime)
      ∧ s'.lastSWState = i.sw)
    ∧ (s.lastSWState = true → i.sw = false → iB.sw = true → iC.sw = false → g < ULONG →
        iC.now = (i.now + g) % ULONG →
        ∃ sA sB sC, loop fuel i s = some sA ∧ loop fuel iB sA = some sB
          ∧ loop fuel iC sB = some sC
          ∧ sC.standbyMode = (if g < 400 then !sB.standbyMode else sB.standbyMode)
          ∧ (handleStandbyButton i s).buttonPressed = true
          ∧ (handleStandbyButton iC sB).buttonPressed = true) := by
  have cycle : ∀ (i : Inputs) (s : State),
      (pollInputs i s).standbyMode
          = (if (s.lastSWState = true ∧ i.sw = false)
                ∧ sub32 i.now s.lastButtonPressTime < 400 then !s.standbyMode
             else s.standbyMode)
      ∧ (handleStandbyButton i s).buttonPressed = decide (s.lastSWState = true ∧ i.sw = false)
      ∧ (pollInputs i s).lastButtonPressTime
          = (if s.lastSWState = true ∧ i.sw = false then i.now else s.lastButtonPressTime)
      ∧ (pollInputs i s).lastSWState = i.sw := by
    intro i s
    obtain ⟨a1, a2, a3⟩ := pollInputs_button_fields i s
    obtain ⟨b1, b2, b3, b4⟩ := handleStandbyButton_fields i s
    exact ⟨a1.trans b1, b2, a2.trans b3, a3.trans b4⟩
  refine ⟨⟨_, loop_eq_pollInputs fuel i s, cycle i s⟩, ?_⟩
  intro hlast hsw hB hC hg hnow
  refine ⟨_, _, _, loop_eq_pollInputs fuel i s, loop_eq_pollInputs fuel iB _,
    loop_eq_pollInputs fuel iC _, ?_, ?_, ?_⟩
  · obtain ⟨_, _, a3, a4⟩ := cycle i s
    obtain ⟨_, _, b3, b4⟩ := cycle iB (pollInputs i s)
    obtain ⟨c1, _, _, _⟩ := cycle iC (pollInputs iB (pollInputs i s))
    rw [c1, b4, b3, a4, a3, hB, hC, hsw, hlast, hnow]
    simp [sub32_add i.now g hg]
  · rw [(cycle i s).2.1]
    simp [hlast, hsw]
  · obtain ⟨_, _, _, b4⟩ := cycle iB (pollInputs i s)
    rw [(cycle iC _).2.1, b4]
    simp [hB, hC]

/-- C6, witness: a second press 399 ms after the first. -/
theorem c6_double_click_threshold_witness :
    standbyState.lastSWState = true ∧ pressAt20s.sw = false ∧ releaseAt20s.sw = true
      ∧ pressAgainAt20s.sw = false ∧ 399 < ULONG
      ∧ pressAgainAt20s.now = (pressAt20s.now + 399) % ULONG
      ∧ ∃ sA sB sC, loop 0 pressAt20s standbyState = some sA
          ∧ loop 0 releaseAt20s sA = some sB ∧ loop 0 pressAgainAt20s sB = some sC
          ∧ sC.standbyMode = (if 399 < 400 then !sB.standbyMode else sB.standbyMode)
          ∧ (handleStandbyButton pressAt20s standbyState).buttonPressed = true
          ∧ (handleStandbyButton pressAgainAt20s sB).buttonPressed = true :=
  ⟨by decide, by decide, by decide, by decide, by decide, by decide,
    (c6_double_click_threshold 0 standbyState pressAt20s releaseAt20s pressAgainAt20s 399).2
      (by decide) (by decide) (by decide) (by decide) (by decide) (by decide)⟩

/-! ## C7 to C10: countdown life cycle -/

/-- Result of `handleStandbyButton` on a falling edge that is no double click. -/
theorem handleStandbyButton_single_click (i : Inputs) (s : State) (hlast : s.lastSWState = true)
    (hsw : i.sw = false) (hgap : 400 ≤ sub32 i.now s.lastButtonPressTime) :
    handleStandbyButton i s
      = { s with lastButtonPressTime := i.now, buttonPressed := true, lastSWState := false } := by
  have hng : ¬ sub32 i.now s.lastButtonPressTime < 400 := by omega
  simp [handleStandbyButton, hlast, hsw, hng, doubleClickTime]

/-- Result of `handleStandbyButton` in a pass without a falling edge. -/
theorem handleStandbyButton_no_edge (i : Inputs) (s : State)
    (hno : ¬ (s.lastSWState = true ∧ i.sw = false)) :
    handleStandbyButton i s = { s with buttonPressed := false, lastSWState := i.sw } := by
  simp [handleStandbyButton, hno]

/-- Selection after `handleEncoder`, for an index in range: one circular step
on a rising clock edge, and the index stays in range. -/
theorem handleEncoder_selection (i : Inputs) (s : State) (h0 : 0 ≤ s.selection)
    (h7 : s.selection < 7) :
    (handleEncoder i s).selection
        = (if i.clk ≠ s.lastCLKState ∧ i.clk = true then
            if i.dt = true then (s.selection + 1) % 7 else (s.selection + 6) % 7
           else s.selection)
      ∧ 0 ≤ (handleEncoder i s).selection ∧ (handleEncoder i s).selection < 7 := by
  generalize hsel : s.selection = sel at *
  simp only [handleEncoder, numOptions, timerOptions]
  interval_cases sel <;> split_ifs <;> simp_all <;> decide

/-- Only the selection and the stored clock level change in `handleEncoder`. -/
theorem handleEncoder_frame (i : Inputs) (s : State) :
    handleEncoder i s
      = { s with selection := (handleEncoder i s).selection, lastCLKState := i.clk } := by
  simp only [handleEncoder]
  split_ifs <;> rfl

/-- The seven durations in milliseconds, computed in 32 bits without overflow. -/
theorem timerOptionAt_ms (k : Int) (h0 : 0 ≤ k) (h7 : k < 7) :
    ((mul32 (mul32 (toU32 (timerOptionAt k)) 60) 1000 : Nat) : Int) = timerOptionAt k * 60000
      ∧ timerOptionAt k * 60 * 1000 < 4294967296 := by
  interval_cases k <;> decide

/-- C7.  From Selecting mode with the selection index in range, a pass at
instant `now` with a falling edge that is no double click ends with
`countdownActive = true`, `finishedState = false`, `standbyMode = false`,
`countdownStartMillis = now` and `countdownDurationMillis` equal to
`timerOptions[sel] * 60000`, `sel` being the index after the rotation handled
in the same pass; none of the seven products overflows 32 bits. -/
theorem c7_selecting_single_click (fuel : Nat) (i : Inputs) (s : State)
    (hs : s.standbyMode = false) (hc : s.countdownActive = false) (hf : s.finishedState = false)
    (h0 : 0 ≤ s.selection) (h7 : s.selection < 7)
    (hlast : s.lastSWState = true) (hsw : i.sw = false)
    (hgap : 400 ≤ sub32 i.now s.lastButtonPressTime) :
    ∃ s', loop fuel i s = some s'
      ∧ s'.countdownActive = true ∧ s'.finishedState = false ∧ s'.standbyMode = false
      ∧ s'.mode = Mode.CountingDown
      ∧ s'.countdownStartMillis = i.now
      ∧ (s'.countdownDurationMillis : Int) = timerOptionAt s'.selection * 60000
      ∧ s'.selection
          = (if i.clk ≠ s.lastCLKState ∧ i.clk = true then
              if i.dt = true then (s.selection + 1) % 7 else (s.selection + 6) % 7
             else s.selection)
      ∧ (∀ k : Int, 0 ≤ k → k < 7 → timerOptionAt k * 60 * 1000 < 4294967296) := by
  refine ⟨_, loop_eq_pollInputs fuel i s, ?_⟩
  obtain ⟨e1, e2, e3⟩ := handleEncoder_selection i
    { s with lastButtonPressTime := i.now, buttonPressed := true, lastSWState := false } h0 h7
  have hp : pollInputs i s
      = showSelection { startCountdown i.now (handleEncoder i
          { s with lastButtonPressTime := i.now, buttonPressed := true, lastSWState := false })
          with buttonPressed := false } := by
    simp only [pollInputs, handleStandbyButton_single_click i s hlast hsw hgap]
    rw [handleEncoder_frame]
    simp [hs, hc, hf, handleButtonStart]
  have hfin : (pollInputs i s).finishedState = false := by
    rw [hp, handleEncoder_frame]
    exact hf
  have hstb : (pollInputs i s).standbyMode = false := by
    rw [hp, handleEncoder_frame]
    exact hs
  have hact : (pollInputs i s).countdownActive = true := by rw [hp]; rfl
  refine ⟨hact, hfin, hstb, ?_, ?_, ?_, ?_, fun k k0 k7 => (timerOptionAt_ms k k0 k7).2⟩
  · simp [State.mode, hact, hstb]
  · rw [hp]; rfl
  · rw [hp]; exact (timerOptionAt_ms _ e2 e3).1
  · rw [hp]; exact e1

/-- C7, witness: a click at 20 s in Selecting mode with the encoder at rest. -/
theorem c7_selecting_single_click_witness :
    ∃ s', loop 0 pressAt20s selectingState = some s'
      ∧ s'.countdownActive = true ∧ s'.finishedState = false ∧ s'.standbyMode = false
      ∧ s'.mode = Mode.CountingDown
      ∧ s'.countdownStartMillis = pressAt20s.now
      ∧ (s'.countdownDurationMillis : Int) = timerOptionAt s'.selection * 60000
      ∧ s'.selection
          = (if pressAt20s.clk ≠ selectingState.lastCLKState ∧ pressAt20s.clk = true then
              if pressAt20s.dt = true then (selectingState.selection + 1) % 7
              else (selectingState.selection + 6) % 7
             else selectingState.selection)
      ∧ (∀ k : Int, 0 ≤ k → k < 7 → timerOptionAt k * 60 * 1000 < 4294967296) :=
  c7_selecting_single_click 0 pressAt20s selectingState (by decide) (by decide) (by decide)
    (by decide) (by decide) (by decide) (by decide) (by decide)

/-- A pass without a falling edge in CountingDown mode only runs `updateCountdown`. -/
theorem pollInputs_counting_no_edge (i : Inputs) (s : State) (hs : s.standbyMode = false)
    (hc : s.countdownActive = true) (hno : ¬ (s.lastSWState = true ∧ i.sw = false)) :
    pollInputs i s
      = updateCountdown i.now { s with buttonPressed := false, lastSWState := i.sw } := by
  simp only [pollInputs, handleStandbyButton_no_edge i s hno]
  simp [hs, hc, handleButtonReset]

/-- A pass without a falling edge in Finished mode only runs `handleFinishedScreen`. -/
theorem pollInputs_finished_no_edge (i : Inputs) (s : State) (hs : s.standbyMode = false)
    (hc : s.countdownActive = false) (hf : s.finishedState = true)
    (hno : ¬ (s.lastSWState = true ∧ i.sw = false)) :
    pollInputs i s
      = handleFinishedScreen i.now { s with buttonPressed := false, lastSWState := i.sw } := by
  simp only [pollInputs, handleStandbyButton_no_edge i s hno]
  simp [hs, hc, hf, handleButtonReset, handleFinishedScreen]
  split_ifs <;> simp

/-- The mode flags are untouched by `handleFinishedScreen`. -/
theorem handleFinishedScreen_mode (now : Nat) (s : State) :
    (handleFinishedScreen now s).mode = s.mode := by
  simp only [handleFinishedScreen, State.mode]
  split_ifs <;> rfl

/-- C8.  In a pass without a button falling edge, with `e` the 32-bit difference
`now - countdownStartMillis`: from CountingDown mode the frame drawn is that of
`showRemaining(max(0, duration - e))`; if `e < duration` the mode stays
CountingDown, otherwise it becomes Finished and the remaining time drawn is 0.
From Finished mode the pass ends in Finished.  A ten-minute countdown started at
`t` is CountingDown with 1 ms remaining at `t + 599999` and Finished with 0
remaining at `t + 600000`. -/
theorem c8_countdown_expiry (fuel : Nat) (i : Inputs) (s : State) (t : Nat)
    (hs : s.standbyMode = false) (hno : ¬ (s.lastSWState = true ∧ i.sw = false))
    (hwf : s.countdownDurationMillis < ULONG) :
    (s.countdownActive = true →
      ∃ s', loop fuel i s = some s'
        ∧ s'.display
            = showRemainingFrame (s.countdownDurationMillis - sub32 i.now s.countdownStartMillis)
        ∧ (sub32 i.now s.countdownStartMillis < s.countdownDurationMillis →
            s'.mode = Mode.CountingDown)
        ∧ (s.countdownDurationMillis ≤ sub32 i.now s.countdownStartMillis →
            s'.mode = Mode.Finished ∧ s'.display = showRemainingFrame 0))
    ∧ (s.countdownActive = false → s.finishedState = true →
        ∃ s', loop fuel i s = some s' ∧ s'.mode = Mode.Finished)
    ∧ (s.countdownActive = true → s.countdownDurationMillis = 600000 →
        s.countdownStartMillis = t →
        (i.now = (t + 599999) % ULONG →
          ∃ s', loop fuel i s = some s' ∧ s'.mode = Mode.CountingDown
            ∧ s'.display = showRemainingFrame 1)
        ∧ (i.now = (t + 600000) % ULONG →
          ∃ s', loop fuel i s = some s' ∧ s'.mode = Mode.Finished
            ∧ s'.display = showRemainingFrame 0)) := by
  have main : s.countdownActive = true →
      (pollInputs i s).display
            = showRemainingFrame (s.countdownDurationMillis - sub32 i.now s.countdownStartMillis)
        ∧ (sub32 i.now s.countdownStartMillis < s.countdownDurationMillis →
            (pollInputs i s).mode = Mode.CountingDown)
        ∧ (s.countdownDurationMillis ≤ sub32 i.now s.countdownStartMillis →
            (pollInputs i s).mode = Mode.Finished
              ∧ (pollInputs i s).display = showRemainingFrame 0) := by
    intro hc
    rw [pollInputs_counting_no_edge i s hs hc hno]
    by_cases he : sub32 i.now s.countdownStartMillis < s.countdownDurationMillis
    · have hsub := sub32_of_le _ _ (Nat.le_of_lt he) hwf
      have hpos : ¬ (s.countdownDurationMillis - sub32 i.now s.countdownStartMillis = 0) := by
        omega
      have hle : ¬ (s.countdownDurationMillis ≤ sub32 i.now s.countdownStartMillis) := by omega
      simp [updateCountdown, showRemaining, State.mode, he, hsub, hpos, hle, hs, hc]
    · have hle : s.countdownDurationMillis ≤ sub32 i.now s.countdownStartMillis := by omega
      have hz : s.countdownDurationMillis - sub32 i.now s.countdownStartMillis = 0 := by omega
      simp [updateCountdown, showRemaining, State.mode, he, hle, hz, hs]
  refine ⟨fun hc => ⟨_, loop_eq_pollInputs fuel i s, main hc⟩, ?_, ?_⟩
  · intro hc hf
    refine ⟨_, loop_eq_pollInputs fuel i s, ?_⟩
    rw [pollInputs_finished_no_edge i s hs hc hf hno, handleFinishedScreen_mode]
    simp [State.mode, hs, hc, hf]
  · intro hc hd ht
    obtain ⟨m1, m2, m3⟩ := main hc
    constructor
    · intro hn
      have e : sub32 i.now s.countdownStartMillis = 599999 := by
        rw [hn, ht]; exact sub32_add t 599999 (by decide)
      rw [e, hd] at m1 m2
      exact ⟨_, loop_eq_pollInputs fuel i s, m2 (by decide), m1⟩
    · intro hn
      have e : sub32 i.now s.countdownStartMillis = 600000 := by
        rw [hn, ht]; exact sub32_add t 600000 (by decide)
      rw [e, hd] at m3
      exact ⟨_, loop_eq_pollInputs fuel i s, m3 (le_refl _)⟩

/-- C8, witness: the ten-minute countdown started at 20 s, polled at 619.999 s
and at 620 s. -/
theorem c8_countdown_expiry_witness :
    tenMinuteState.standbyMode = false ∧ tenMinuteState.countdownActive = true
      ∧ tenMinuteState.countdownDurationMillis = 600000
      ∧ tenMinuteState.countdownStartMillis = 20000
      ∧ (∃ s', loop 0 (passAt 619999 true) tenMinuteState = some s'
          ∧ s'.mode = Mode.CountingDown ∧ s'.display = showRemainingFrame 1)
      ∧ (∃ s', loop 0 (passAt 620000 true) tenMinuteState = some s'
          ∧ s'.mode = Mode.Finished ∧ s'.display = showRemainingFrame 0) :=
  ⟨by decide, by decide, by decide, by decide,
    ((c8_countdown_expiry 0 (passAt 619999 true) tenMinuteState 20000 (by decide) (by decide)
      (by decide)).2.2 (by decide) (by decide) (by decide)).1 (by decide),
    ((c8_countdown_expiry 0 (passAt 620000 true) tenMinuteState 20000 (by decide) (by decide)
      (by decide)).2.2 (by decide) (by decide) (by decide)).2 (by decide)⟩

/-- A single click in CountingDown mode: the countdown is discarded, and the pass
ends in Selecting mode if the time had not run out at that instant, in Finished
mode if it had. -/
theorem counting_single_click (fuel : Nat) (i : Inputs) (s : State)
    (hs : s.standbyMode = false) (hc : s.countdownActive = true)
    (hlast : s.lastSWState = true) (hsw : i.sw = false)
    (hgap : 400 ≤ sub32 i.now s.lastButtonPressTime)
    (hwf : s.countdownDurationMillis < ULONG) :
    ∃ s', loop fuel i s = some s' ∧ s'.countdownActive = false ∧ s'.standbyMode = false
      ∧ (sub32 i.now s.countdownStartMillis < s.countdownDurationMillis →
          s'.mode = Mode.Selecting)
      ∧ (s.countdownDurationMillis ≤ sub32 i.now s.countdownStartMillis →
          s'.mode = Mode.Finished) := by
  refine ⟨_, loop_eq_pollInputs fuel i s, ?_⟩
  simp only [pollInputs, handleStandbyButton_single_click i s hlast hsw hgap]
  by_cases he : sub32 i.now s.countdownStartMillis < s.countdownDurationMillis
  · have hsub := sub32_of_le _ _ (Nat.le_of_lt he) hwf
    have hpos : ¬ (s.countdownDurationMillis - sub32 i.now s.countdownStartMillis = 0) := by
      omega
    have hle : ¬ (s.countdownDurationMillis ≤ sub32 i.now s.countdownStartMillis) := by omega
    cases hf : s.finishedState <;>
      simp [handleButtonReset, updateCountdown, showSelection, showRemaining, State.mode,
        hs, hc, hf, he, hsub, hpos, hle]
  · have hle : s.countdownDurationMillis ≤ sub32 i.now s.countdownStartMillis := by omega
    cases hf : s.finishedState <;>
      simp [handleButtonReset, updateCountdown, showSelection, showRemaining, State.mode,
        hs, hc, hf, he, hle]

/-- C9, evaluation at the failing input.  The one-minute countdown started at
20 s is in CountingDown mode; a single click in the pass at 80 s, the first pass
at which the time has run out, ends in Finished mode instead of Selecting:
`handleButtonReset` clears `countdownActive` and `updateCountdown`, run next on
the discarded countdown, sets `finishedState`. -/
theorem c9_click_at_expiry_ends_finished :
    countingState.mode = Mode.CountingDown ∧ countingState.lastSWState = true
      ∧ (passAt 80000 false).sw = false
      ∧ 400 ≤ sub32 (passAt 80000 false).now countingState.lastButtonPressTime
      ∧ (loop 0 (passAt 80000 false) countingState).map State.mode = some Mode.Finished
      ∧ (loop 0 (passAt 80000 false) countingState).map State.finishedState = some true
      ∧ (loop 0 (passAt 79999 false) countingState).map State.mode = some Mode.Selecting := by
  decide

/-- C10.  From Finished mode, a pass with a falling edge that is no double click
ends in Selecting mode (`finishedState = false`, `countdownActive = false`) with
the selection index unchanged, and a pass without a falling edge ends in
Finished mode. -/
theorem c10_finished_single_click (fuel : Nat) (i : Inputs) (s : State)
    (hs : s.standbyMode = false) (hc : s.countdownActive = false) (hf : s.finishedState = true) :
    (s.lastSWState = true → i.sw = false → 400 ≤ sub32 i.now s.lastButtonPressTime →
      ∃ s', loop fuel i s = some s' ∧ s'.mode = Mode.Selecting ∧ s'.finishedState = false
        ∧ s'.countdownActive = false ∧ s'.standbyMode = false ∧ s'.selection = s.selection)
    ∧ (¬ (s.lastSWState = true ∧ i.sw = false) →
      ∃ s', loop fuel i s = some s' ∧ s'.mode = Mode.Finished ∧ s'.selection = s.selection) := by
  constructor
  · intro hlast hsw hgap
    refine ⟨_, loop_eq_pollInputs fuel i s, ?_⟩
    simp only [pollInputs, handleStandbyButton_single_click i s hlast hsw hgap]
    simp only [handleFinishedScreen]
    split_ifs <;> simp_all [handleButtonReset, showSelection, State.mode]
  · intro hno
    refine ⟨_, loop_eq_pollInputs fuel i s, ?_⟩
    rw [pollInputs_finished_no_edge i s hs hc hf hno, handleFinishedScreen_mode]
    constructor
    · simp [State.mode, hs, hc, hf]
    · simp only [handleFinishedScreen]
      split_ifs <;> rfl

/-- C10, witness: a click at 90 s in the Finished mode entered at 80 s, and an
pass without an edge at the same instant. -/
theorem c10_finished_single_click_witness :
    finishedAt80s.lastSWState = true ∧ (passAt 90000 false).sw = false
      ∧ 400 ≤ sub32 (passAt 90000 false).now finishedAt80s.lastButtonPressTime
      ∧ (∃ s', loop 0 (passAt 90000 false) finishedAt80s = some s'
          ∧ s'.mode = Mode.Selecting ∧ s'.finishedState = false ∧ s'.countdownActive = false
          ∧ s'.standbyMode = false ∧ s'.selection = finishedAt80s.selection)
      ∧ (∃ s', loop 0 (passAt 90000 true) finishedAt80s = some s'
          ∧ s'.mode = Mode.Finished ∧ s'.selection = finishedAt80s.selection) :=
  ⟨by decide, by decide, by decide,
    (c10_finished_single_click 0 (passAt 90000 false) finishedAt80s (by decide) (by decide)
      (by decide)).1 (by decide) (by decide) (by decide),
    (c10_finished_single_click 0 (passAt 90000 true) finishedAt80s (by decide) (by decide)
      (by decide)).2 (by decide)⟩

/-! ## C11: blinking in Finished mode -/

/-- A run returns, and its result is that of the passes applied in turn. -/
theorem runLoop_eq_foldl (fuel : Nat) (passes : List Inputs) (s : State) :
    runLoop fuel passes s = some (passes.foldl (fun st i => pollInputs i st) s) := by
  induction passes generalizing s with
  | nil => rfl
  | cons i rest ih =>
    simp only [runLoop, loop_eq_pollInputs, Option.some_bind, List.foldl_cons]
    exact ih _

/-- Entering Finished mode restarts the blink interval but keeps the blink flag:
the pass in which the countdown runs out, without a button edge, sets
`lastBlinkMillis` to its instant and leaves `finishedBlinkState` as it was. -/
theorem entering_finished_keeps_blink_flag (i : Inputs) (s : State)
    (hs : s.standbyMode = false) (hc : s.countdownActive = true)
    (hno : ¬ (s.lastSWState = true ∧ i.sw = false))
    (he : s.countdownDurationMillis ≤ sub32 i.now s.countdownStartMillis) :
    (pollInputs i s).mode = Mode.Finished ∧ (pollInputs i s).lastBlinkMillis = i.now
      ∧ (pollInputs i s).finishedBlinkState = s.finishedBlinkState
      ∧ (pollInputs i s).display = Frame.framedTime 0 0 0 := by
  have hn : ¬ (sub32 i.now s.countdownStartMillis < s.countdownDurationMillis) := by omega
  rw [pollInputs_counting_no_edge i s hs hc hno]
  simp [updateCountdown, showRemaining, State.mode, hn, hs]
  decide

/-- A pass in Finished mode without a button edge: once 500 ms have passed since
`lastBlinkMillis` the blink flag is toggled and the frame drawn is the time
text if the flag is now `true`, the blank frame if it is now `false`. -/
theorem finished_pass_blink (i : Inputs) (s : State) (hs : s.standbyMode = false)
    (hc : s.countdownActive = false) (hf : s.finishedState = true)
    (hno : ¬ (s.lastSWState = true ∧ i.sw = false))
    (hb : 500 ≤ sub32 i.now s.lastBlinkMillis) :
    (pollInputs i s).finishedBlinkState = (!s.finishedBlinkState)
      ∧ (pollInputs i s).lastBlinkMillis = i.now
      ∧ (pollInputs i s).display
          = (if s.finishedBlinkState = false then Frame.framedTime 0 0 0 else Frame.blank) := by
  rw [pollInputs_finished_no_edge i s hs hc hf hno]
  cases hbl : s.finishedBlinkState <;> simp [handleFinishedScreen, blinkInterval, hb, hbl]

/-- C11, evaluation at the failing input.  The one-minute countdown started at
20 s, with the blink flag still `false` as at power-up, enters Finished mode in
the pass at 80 s, which draws "00:00:00".  The pass at 80.5 s toggles the flag
to `true` and draws "00:00:00" again instead of the blank frame; the blank frame
comes only at 81 s.  With the flag left `true` by an earlier stay in Finished
mode, the same passes draw the blank frame at 80.5 s. -/
theorem c11_first_blink_redraws_text :
    countingState.finishedBlinkState = State.init.finishedBlinkState
      ∧ (runLoop 0 [passAt 80000 true] countingState).map State.mode = some Mode.Finished
      ∧ (runLoop 0 [passAt 80000 true] countingState).map State.display
          = some (Frame.framedTime 0 0 0)
      ∧ (runLoop 0 [passAt 80000 true, passAt 80500 true] countingState).map State.display
          = some (Frame.framedTime 0 0 0)
      ∧ (runLoop 0 [passAt 80000 true, passAt 80500 true] countingState).map State.display
          ≠ some Frame.blank
      ∧ (runLoop 0 [passAt 80000 true, passAt 80500 true, passAt 81000 true]
            countingState).map State.display = some Frame.blank
      ∧ (runLoop 0 [passAt 80000 true, passAt 80500 true] countingStateBlinkSet).map
            State.display = some Frame.blank := by
  decide

/-! ## C12 and C13: the selection index -/

/-- A pass in Selecting mode with the button line HIGH only runs the encoder
handler and redraws the selection. -/
theorem pollInputs_selecting_released (i : Inputs) (s : State) (hs : s.standbyMode = false)
    (hc : s.countdownActive = false) (hf : s.finishedState = false) (hsw : i.sw = true) :
    pollInputs i s
      = showSelection (handleEncoder i { s with buttonPressed := false, lastSWState := true }) := by
  have hno : ¬ (s.lastSWState = true ∧ i.sw = false) := by simp [hsw]
  simp only [pollInputs, handleStandbyButton_no_edge i s hno, hsw]
  rw [handleEncoder_frame]
  simp [hs, hc, hf, handleButtonStart]

/-- One detent in Selecting mode moves the index one circular step, up for data
HIGH and down for data LOW, and leaves the machine in Selecting mode with the
clock level LOW stored. -/
theorem detent_step (dt : Bool) (d : Inputs × Inputs) (s : State) (hd : IsDetent dt d)
    (hs : s.standbyMode = false) (hc : s.countdownActive = false)
    (hf : s.finishedState = false) (hclk : s.lastCLKState = false)
    (h0 : 0 ≤ s.selection) (h7 : s.selection < 7) :
    (pollInputs d.2 (pollInputs d.1 s)).selection
        = (s.selection + (if dt = true then 1 else 6)) % 7
      ∧ (pollInputs d.1 s).selection = (s.selection + (if dt = true then 1 else 6)) % 7
      ∧ (pollInputs d.2 (pollInputs d.1 s)).standbyMode = false
      ∧ (pollInputs d.2 (pollInputs d.1 s)).countdownActive = false
      ∧ (pollInputs d.2 (pollInputs d.1 s)).finishedState = false
      ∧ (pollInputs d.2 (pollInputs d.1 s)).lastCLKState = false := by
  obtain ⟨a1, a2, a3, b1, b2⟩ := hd
  have p1 := pollInputs_selecting_released d.1 s hs hc hf a3
  obtain ⟨e1, e2, e3⟩ := handleEncoder_selection d.1
    { s with buttonPressed := false, lastSWState := true } h0 h7
  have q1 : (pollInputs d.1 s).selection = (s.selection + (if dt = true then 1 else 6)) % 7 := by
    rw [p1]
    show (handleEncoder d.1 _).selection = _
    rw [e1]
    cases dt <;> simp [a1, a2, hclk]
  have f1 : (pollInputs d.1 s).standbyMode = false := by rw [p1, handleEncoder_frame]; exact hs
  have f2 : (pollInputs d.1 s).countdownActive = false := by
    rw [p1, handleEncoder_frame]; exact hc
  have f3 : (pollInputs d.1 s).finishedState = false := by
    rw [p1, handleEncoder_frame]; exact hf
  have f4 : (pollInputs d.1 s).lastCLKState = true := by
    rw [p1, handleEncoder_frame]; exact a1
  have p2 := pollInputs_selecting_released d.2 (pollInputs d.1 s) f1 f2 f3 b2
  refine ⟨?_, q1, ?_, ?_, ?_, ?_⟩
  · rw [p2, ← q1]
    show (handleEncoder d.2 _).selection = _
    simp [handleEncoder, b1]
  · rw [p2, handleEncoder_frame]; exact f1
  · rw [p2, handleEncoder_frame]; exact f2
  · rw [p2, handleEncoder_frame]; exact f3
  · rw [p2, handleEncoder_frame]; exact b1

/-- A run of detents in one direction moves the index by that many circular
steps and ends in Selecting mode. -/
theorem detents_run (dt : Bool) (fuel : Nat) (ds : List (Inputs × Inputs))
    (hds : ∀ d ∈ ds, IsDetent dt d) (s : State)
    (hs : s.standbyMode = false) (hc : s.countdownActive = false)
    (hf : s.finishedState = false) (hclk : s.lastCLKState = false)
    (h0 : 0 ≤ s.selection) (h7 : s.selection < 7) :
    ∃ s', runLoop fuel (detentPasses ds) s = some s'
      ∧ s'.selection = (s.selection + (if dt = true then 1 else 6) * (ds.length : Int)) % 7
      ∧ s'.standbyMode = false ∧ s'.countdownActive = false ∧ s'.finishedState = false
      ∧ s'.lastCLKState = false := by
  induction ds generalizing s with
  | nil =>
    refine ⟨s, rfl, ?_, hs, hc, hf, hclk⟩
    simp only [List.length_nil, Nat.cast_zero, mul_zero, add_zero]
    omega
  | cons d rest ih =>
    obtain ⟨q, _, f1, f2, f3, f4⟩ :=
      detent_step dt d s (hds d (List.mem_cons_self _ _)) hs hc hf hclk h0 h7
    have hr : ∀ e ∈ rest, IsDetent dt e := fun e he => hds e (List.mem_cons_of_mem _ he)
    obtain ⟨s', r1, r2, r3⟩ := ih hr (pollInputs d.2 (pollInputs d.1 s)) f1 f2 f3 f4
      (by rw [q]; cases dt <;> simp <;> omega) (by rw [q]; cases dt <;> simp <;> omega)
    refine ⟨s', ?_, ?_, r3⟩
    · simp only [detentPasses, runLoop, loop_eq_pollInputs, Option.some_bind]
      exact r1
    · rw [r2, q]
      simp only [List.length_cons, Nat.cast_add, Nat.cast_one]
      cases dt <;> simp <;> omega

/-- The selection index is the same after `handleStandbyButton`. -/
theorem handleStandbyButton_selection (i : Inputs) (s : State) :
    (handleStandbyButton i s).selection = s.selection := by
  simp only [handleStandbyButton]
  split_ifs <;> rfl

/-- A pass keeps the selection index in range. -/
theorem pollInputs_selection_range (i : Inputs) (s : State) (h0 : 0 ≤ s.selection)
    (h7 : s.selection < 7) :
    0 ≤ (pollInputs i s).selection ∧ (pollInputs i s).selection < 7 := by
  have h1 := handleStandbyButton_selection i s
  obtain ⟨_, e2, e3⟩ := handleEncoder_selection i (handleStandbyButton i s)
    (by rw [h1]; exact h0) (by rw [h1]; exact h7)
  have hsel : (pollInputs i s).selection = s.selection
      ∨ (pollInputs i s).selection = (handleEncoder i (handleStandbyButton i s)).selection := by
    simp only [pollInputs]
    split_ifs
    · left; exact h1
    · right
      simp only [showSelection, handleButtonStart, startCountdown]
      split_ifs <;> rfl
    · left
      simp only [updateCountdown, showRemaining, handleButtonReset, showSelection]
      split_ifs <;> simp [h1]
    · left
      simp only [handleButtonReset, handleFinishedScreen, showSelection]
      split_ifs <;> simp [h1]
    · left; exact h1
  rcases hsel with h | h
  · rw [h]; exact ⟨h0, h7⟩
  · rw [h]; exact ⟨e2, e3⟩

/-- Every run returns and keeps the selection index in range. -/
theorem runLoop_selection_range (fuel : Nat) (passes : List Inputs) (s : State)
    (h0 : 0 ≤ s.selection) (h7 : s.selection < 7) :
    ∃ s', runLoop fuel passes s = some s' ∧ 0 ≤ s'.selection ∧ s'.selection < 7 := by
  induction passes generalizing s with
  | nil => exact ⟨s, rfl, h0, h7⟩
  | cons i rest ih =>
    obtain ⟨a, b⟩ := pollInputs_selection_range i s h0 h7
    obtain ⟨s', r1, r2⟩ := ih (pollInputs i s) a b
    exact ⟨s', by simp only [runLoop, loop_eq_pollInputs, Option.some_bind]; exact r1, r2⟩

/-- Selecting mode means that the three flags are clear. -/
theorem mode_selecting_iff (s : State) :
    s.mode = Mode.Selecting
      ↔ s.standbyMode = false ∧ s.countdownActive = false ∧ s.finishedState = false := by
  cases h1 : s.standbyMode <;> cases h2 : s.countdownActive <;> cases h3 : s.finishedState <;>
    simp [State.mode, h1, h2, h3]

/-- The globals that `setup()` leaves at their initial values. -/
theorem setup_fields (fuel : Nat) (clk : Bool) (net : Net) (s : State)
    (h : setup fuel clk net = some s) :
    s.selection = 0 ∧ s.standbyMode = true ∧ s.countdownActive = false
      ∧ s.finishedState = false ∧ s.lastSWState = true ∧ s.lastCLKState = clk
      ∧ s.finishedBlinkState = false ∧ s.buttonPressed = false := by
  unfold setup syncTimeWithNTP at h
  cases hw : net.wifiAtSync <;> simp only [hw] at h
  · cases h
    simp only [connectToWiFi, setInternalTime, State.init]
    split_ifs <;> simp
  · cases hn : net.ntp with
    | none =>
      simp only [hn, if_true, Option.some.injEq] at h
      subst h
      simp only [connectToWiFi, setInternalTime, State.init]
      split_ifs <;> simp
    | some r =>
      simp only [hn, if_true, Option.map_eq_some'] at h
      obtain ⟨dst, _, rfl⟩ := h
      simp only [connectToWiFi, setInternalTime, State.init]
      split_ifs <;> simp

/-- In range, `timerOptions[selection]` is an element of the table. -/
theorem timerOptionAt_mem (k : Int) (h0 : 0 ≤ k) (h7 : k < 7) :
    timerOptionAt k ∈ timerOptions := by
  interval_cases k <;> decide

/-- C12, counterexample.  From index 0 in Selecting mode, six counter-clockwise
detents leave the index at 1 and the seventh brings it back to 0, not to 6. -/
theorem c12_seven_ccw_detents_return_to_zero :
    selectingState.mode = Mode.Selecting ∧ selectingState.selection = 0
      ∧ IsDetent false ccwDetent
      ∧ (runLoop 0 (detentPasses (List.replicate 6 ccwDetent)) selectingState).map
          State.selection = some 1
      ∧ (runLoop 0 (detentPasses (List.replicate 7 ccwDetent)) selectingState).map
          State.selection = some 0
      ∧ (runLoop 0 (detentPasses (List.replicate 7 ccwDetent)) selectingState).map
          State.selection ≠ some 6 := by
  refine ⟨by decide, by decide, ⟨by decide, by decide, by decide, by decide, by decide⟩,
    by decide, by decide, by decide⟩

/-- C12, amended.  From index 0 in Selecting mode with the clock level LOW
stored, a run of `n` counter-clockwise detents (rising clock edge with the data
line LOW, button released) leaves the index at `6 * n mod 7`: at 6 after one
detent, at 1 after `numOptions - 1 = 6` detents and back at 0 after one more.
After every pass of the run the index is in `0..6`, never -1. -/
theorem c12_ccw_rotation_wrap (fuel : Nat) (ds : List (Inputs × Inputs)) (s : State)
    (hds : ∀ d ∈ ds, IsDetent false d) (hmode : s.mode = Mode.Selecting)
    (hclk : s.lastCLKState = false) (hsel : s.selection = 0) :
    (∃ s', runLoop fuel (detentPasses ds) s = some s'
      ∧ s'.selection = (6 * (ds.length : Int)) % 7
      ∧ (ds.length = 1 → s'.selection = numOptions - 1)
      ∧ ((ds.length : Int) = numOptions - 1 → s'.selection = 1)
      ∧ ((ds.length : Int) = numOptions → s'.selection = 0))
    ∧ (∀ k : Nat, ∃ sk, runLoop fuel ((detentPasses ds).take k) s = some sk
        ∧ 0 ≤ sk.selection ∧ sk.selection < 7 ∧ sk.selection ≠ -1) := by
  obtain ⟨hs, hc, hf⟩ := (mode_selecting_iff s).1 hmode
  constructor
  · obtain ⟨s', r1, r2, _⟩ := detents_run false fuel ds hds s hs hc hf hclk
      (by rw [hsel]) (by rw [hsel]; decide)
    rw [hsel] at r2
    simp only [Bool.false_eq_true, if_false, zero_add] at r2
    have hn : numOptions = 7 := by decide
    refine ⟨s', r1, r2, ?_, ?_, ?_⟩
    · intro h; rw [r2, h, hn]; decide
    · intro h; rw [r2, h, hn]; decide
    · intro h; rw [r2, h, hn]; decide
  · intro k
    obtain ⟨sk, r1, r2, r3⟩ := runLoop_selection_range fuel ((detentPasses ds).take k) s
      (by rw [hsel]) (by rw [hsel]; decide)
    exact ⟨sk, r1, r2, r3, by omega⟩

/-- C12, witness: seven counter-clockwise detents from the first option. -/
theorem c12_ccw_rotation_wrap_witness :
    (∀ d ∈ List.replicate 7 ccwDetent, IsDetent false d)
      ∧ selectingState.mode = Mode.Selecting ∧ selectingState.lastCLKState = false
      ∧ selectingState.selection = 0
      ∧ ∃ s', runLoop 0 (detentPasses (List.replicate 7 ccwDetent)) selectingState = some s'
          ∧ s'.selection = 0 :=
  have hd : ∀ d ∈ List.replicate 7 ccwDetent, IsDetent false d := fun d hm =>
    (List.eq_of_mem_replicate hm) ▸
      (⟨by decide, by decide, by decide, by decide, by decide⟩ : IsDetent false ccwDetent)
  match (c12_ccw_rotation_wrap 0 (List.replicate 7 ccwDetent) selectingState hd (by decide)
    (by decide) (by decide)).1 with
  | ⟨s', h1, _, _, _, h7⟩ => ⟨hd, by decide, by decide, by decide, s', h1, h7 (by decide)⟩

/-- C13.  In every state reached from the initial state (the globals as
defined, or as `setup()` leaves them) by any sequence of passes with arbitrary
inputs, `0 ≤ selection < 7`, so `timerOptions[selection]` is an element of the
table.  In Selecting mode a clockwise detent (data line HIGH) maps the index
`i` to `(i + 1) mod 7` and a counter-clockwise detent (data line LOW) maps it
to `(i + 6) mod 7`; a detent followed by one in the other direction restores
the index, and so do seven detents in the same direction. -/
theorem c13_selection_invariant (fuel : Nat) (passes : List Inputs) (s0 s : State)
    (dt : Bool) (d e : Inputs × Inputs) (ds : List (Inputs × Inputs)) :
    ((s0 = State.init ∨ IsBootState s0) →
      ∃ s', runLoop fuel passes s0 = some s' ∧ 0 ≤ s'.selection ∧ s'.selection < 7
        ∧ timerOptionAt s'.selection ∈ [1, 5, 10, 30, 60, 120, 240])
    ∧ (s.mode = Mode.Selecting → s.lastCLKState = false → 0 ≤ s.selection → s.selection < 7 →
        (IsDetent true d → ∃ s', runLoop fuel (detentPasses [d]) s = some s'
            ∧ s'.selection = (s.selection + 1) % 7)
        ∧ (IsDetent false d → ∃ s', runLoop fuel (detentPasses [d]) s = some s'
            ∧ s'.selection = (s.selection + 6) % 7)
        ∧ (IsDetent dt d → IsDetent (!dt) e →
            ∃ s', runLoop fuel (detentPasses [d, e]) s = some s' ∧ s'.selection = s.selection)
        ∧ ((∀ x ∈ ds, IsDetent dt x) → ds.length = 7 →
            ∃ s', runLoop fuel (detentPasses ds) s = some s'
              ∧ s'.selection = s.selection)) := by
  constructor
  · intro hboot
    have hz : s0.selection = 0 := by
      rcases hboot with rfl | ⟨f, clk, net, hb⟩
      · rfl
      · exact (setup_fields f clk net s0 hb).1
    obtain ⟨s', r1, r2, r3⟩ := runLoop_selection_range fuel passes s0
      (by rw [hz]) (by rw [hz]; decide)
    exact ⟨s', r1, r2, r3, timerOptionAt_mem _ r2 r3⟩
  · intro hmode hclk h0 h7
    obtain ⟨hs, hc, hf⟩ := (mode_selecting_iff s).1 hmode
    have one : ∀ (b : Bool) (x : Inputs × Inputs), IsDetent b x →
        ∃ s', runLoop fuel (detentPasses [x]) s = some s'
          ∧ s'.selection = (s.selection + (if b = true then 1 else 6)) % 7 := by
      intro b x hx
      obtain ⟨s', r1, r2, _⟩ := detents_run b fuel [x] (by simpa using hx) s hs hc hf hclk h0 h7
      exact ⟨s', r1, by simpa using r2⟩
    refine ⟨fun hd => by simpa using one true d hd, fun hd => by simpa using one false d hd,
      ?_, ?_⟩
    · intro hd he
      obtain ⟨q, _, f1, f2, f3, f4⟩ := detent_step dt d s hd hs hc hf hclk h0 h7
      obtain ⟨q2, _⟩ := detent_step (!dt) e (pollInputs d.2 (pollInputs d.1 s)) he f1 f2 f3 f4
        (by rw [q]; cases dt <;> simp <;> omega) (by rw [q]; cases dt <;> simp <;> omega)
      refine ⟨pollInputs e.2 (pollInputs e.1 (pollInputs d.2 (pollInputs d.1 s))),
        by simp only [detentPasses, runLoop, loop_eq_pollInputs, Option.some_bind], ?_⟩
      rw [q2, q]
      cases dt <;> simp <;> omega
    · intro hall hlen
      obtain ⟨s', r1, r2, _⟩ := detents_run dt fuel ds hall s hs hc hf hclk h0 h7
      refine ⟨s', r1, ?_⟩
      rw [r2, hlen]
      cases dt <;> simp <;> omega

/-- C13, witness: a run from the initial state through a press and detents, and
a clockwise detent undone by a counter-clockwise one in Selecting mode. -/
theorem c13_selection_invariant_witness :
    (∃ s', runLoop 0 [pressAt20s, ccwDetent.1, ccwDetent.2, cwDetent.1] State.init = some s'
        ∧ 0 ≤ s'.selection ∧ s'.selection < 7
        ∧ timerOptionAt s'.selection ∈ [1, 5, 10, 30, 60, 120, 240])
      ∧ selectingState.mode = Mode.Selecting ∧ IsDetent true cwDetent
      ∧ IsDetent (!true) ccwDetent
      ∧ (∃ s', runLoop 0 (detentPasses [cwDetent]) selectingState = some s'
          ∧ s'.selection = (selectingState.selection + 1) % 7)
      ∧ (∃ s', runLoop 0 (detentPasses [cwDetent, ccwDetent]) selectingState = some s'
          ∧ s'.selection = selectingState.selection) :=
  have hcw : IsDetent true cwDetent := ⟨by decide, by decide, by decide, by decide, by decide⟩
  have hccw : IsDetent (!true) ccwDetent :=
    ⟨by decide, by decide, by decide, by decide, by decide⟩
  ⟨(c13_selection_invariant 0 [pressAt20s, ccwDetent.1, ccwDetent.2, cwDetent.1] State.init
      selectingState true cwDetent ccwDetent []).1 (Or.inl rfl),
    by decide, hcw, hccw,
    ((c13_selection_invariant 0 [] State.init selectingState true cwDetent ccwDetent []).2
      (by decide) (by decide) (by decide) (by decide)).1 hcw,
    ((c13_selection_invariant 0 [] State.init selectingState true cwDetent ccwDetent []).2
      (by decide) (by decide) (by decide) (by decide)).2.2.1 hcw hccw⟩

/-! ## C14 and C15: time synchronisation -/

/-- The clock anchored to 12:00:00 at `millis() = t0` reads 12:00:00 at `t0` and
12:01:30 at `t0 + 90000`. -/
theorem fallback_anchor_reads (st : State) (t0 : Nat) :
    (updateInternalTime t0 (setInternalTime 12 0 0 t0 st)).timeOfDay = (12, 0, 0)
      ∧ (updateInternalTime ((t0 + 90000) % ULONG) (setInternalTime 12 0 0 t0 st)).timeOfDay
          = (12, 1, 30) := by
  have e0 := elapsed_after_anchor st 12 0 0 t0 0 (by decide)
  have e1 := elapsed_after_anchor st 12 0 0 t0 90000 (by decide)
  have hself : sub32 t0 (setInternalTime 12 0 0 t0 st).timeOffset
      = sub32 ((t0 + 0) % ULONG) (setInternalTime 12 0 0 t0 st).timeOffset := by
    simp only [sub32, Nat.add_zero, Nat.mod_mod]
  simp only [Nat.cast_ofNat, Nat.cast_zero] at e0 e1
  rw [← hself] at e0
  constructor
  · rw [timeOfDay_updateInternalTime, e0]; decide
  · rw [timeOfDay_updateInternalTime, e1]; decide

/-- C14.  If WiFi never connects in `connectToWiFi`, or if it connects and
`timeClient.update()` fails in `syncTimeWithNTP`, then `setup()` returns with
the clock anchored at the instant `t0` of the `setInternalTime(12, 0, 0)` call:
`updateInternalTime()` at `t0` yields 12:00:00 and at `t0 + 90000` yields
12:01:30. -/
theorem c14_offline_boot_fallback (fuel : Nat) (clk : Bool) (net : Net) :
    (net.wifiAfterConnect = false → net.wifiAtSync = false →
      ∃ s0, setup fuel clk net = some s0
        ∧ (updateInternalTime net.tConnect s0).timeOfDay = (12, 0, 0)
        ∧ (updateInternalTime ((net.tConnect + 90000) % ULONG) s0).timeOfDay = (12, 1, 30))
    ∧ (net.wifiAfterConnect = true → net.wifiAtSync = true → net.ntp = none →
      ∃ s0, setup fuel clk net = some s0
        ∧ (updateInternalTime net.tSync s0).timeOfDay = (12, 0, 0)
        ∧ (updateInternalTime ((net.tSync + 90000) % ULONG) s0).timeOfDay = (12, 1, 30)) := by
  constructor
  · intro h1 h2
    simp only [setup, syncTimeWithNTP, connectToWiFi, h1, h2, Bool.false_eq_true, if_false]
    exact ⟨_, rfl, fallback_anchor_reads _ _⟩
  · intro h1 h2 h3
    simp only [setup, syncTimeWithNTP, connectToWiFi, h1, h2, h3, if_true]
    exact ⟨_, rfl, fallback_anchor_reads _ _⟩

/-- C14, witness: WiFi never connects, and WiFi connects without an answer from
the time server. -/
theorem c14_offline_boot_fallback_witness :
    (∃ s0, setup 0 false offlineNet = some s0
        ∧ (updateInternalTime offlineNet.tConnect s0).timeOfDay = (12, 0, 0)
        ∧ (updateInternalTime ((offlineNet.tConnect + 90000) % ULONG) s0).timeOfDay
            = (12, 1, 30))
      ∧ (∃ s0, setup 0 false noNtpNet = some s0
        ∧ (updateInternalTime noNtpNet.tSync s0).timeOfDay = (12, 0, 0)
        ∧ (updateInternalTime ((noNtpNet.tSync + 90000) % ULONG) s0).timeOfDay = (12, 1, 30)) :=
  ⟨(c14_offline_boot_fallback 0 false offlineNet).1 (by decide) (by decide),
    (c14_offline_boot_fallback 0 false noNtpNet).2 (by decide) (by decide) (by decide)⟩

/-- Nothing changed is a case of `KeepsClock`. -/
theorem keepsClock_of_eq (a b : State) (h1 : b.timeOffset = a.timeOffset)
    (h2 : b.isDaylightSavingTime = a.isDaylightSavingTime) (h3 : b.serial = a.serial) :
    KeepsClock a b :=
  ⟨h1, h2, [], by simp [h3], by simp⟩

/-- The relation `KeepsClock` composes. -/
theorem keepsClock_trans (a b c : State) (h1 : KeepsClock a b) (h2 : KeepsClock b c) :
    KeepsClock a c := by
  obtain ⟨a1, a2, l1, a3, a4⟩ := h1
  obtain ⟨b1, b2, l2, b3, b4⟩ := h2
  refine ⟨b1.trans a1, b2.trans a2, l1 ++ l2, by rw [b3, a3, List.append_assoc], ?_⟩
  intro m hm
  rcases List.mem_append.1 hm with h | h
  · exact a4 m h
  · exact b4 m h

/-- The button handler keeps the clock. -/
theorem keepsClock_handleStandbyButton (i : Inputs) (s : State) :
    KeepsClock s (handleStandbyButton i s) := by
  apply keepsClock_of_eq <;> simp only [handleStandbyButton] <;> split_ifs <;> rfl

/-- The encoder handler keeps the clock. -/
theorem keepsClock_handleEncoder (i : Inputs) (s : State) :
    KeepsClock s (handleEncoder i s) := by
  rw [handleEncoder_frame]
  exact keepsClock_of_eq _ _ rfl rfl rfl

/-- Starting a countdown keeps the clock and prints one countdown message. -/
theorem keepsClock_handleButtonStart (now : Nat) (s : State) :
    KeepsClock s (handleButtonStart now s) := by
  simp only [handleButtonStart]
  split_ifs
  · exact ⟨rfl, rfl, [SerialMsg.timerStarted (timerOptionAt s.selection)], rfl,
      by simp⟩
  · exact keepsClock_of_eq _ _ rfl rfl rfl

/-- Resetting keeps the clock. -/
theorem keepsClock_handleButtonReset (s : State) : KeepsClock s (handleButtonReset s) := by
  apply keepsClock_of_eq <;> simp only [handleButtonReset, showSelection] <;> split_ifs <;> rfl

/-- Updating the countdown keeps the clock and prints at most the finish message. -/
theorem keepsClock_updateCountdown (now : Nat) (s : State) :
    KeepsClock s (updateCountdown now s) := by
  simp only [updateCountdown, showRemaining]
  split_ifs
  all_goals first
    | exact ⟨rfl, rfl, [SerialMsg.timerFinished], rfl, by simp⟩
    | exact keepsClock_of_eq _ _ rfl rfl rfl

/-- Blinking keeps the clock. -/
theorem keepsClock_handleFinishedScreen (now : Nat) (s : State) :
    KeepsClock s (handleFinishedScreen now s) := by
  apply keepsClock_of_eq <;> simp only [handleFinishedScreen] <;> split_ifs <;> rfl

/-- A pass keeps the clock anchor and the daylight saving flag and prints at
most countdown messages. -/
theorem keepsClock_pollInputs (i : Inputs) (s : State) : KeepsClock s (pollInputs i s) := by
  have h1 := keepsClock_handleStandbyButton i s
  simp only [pollInputs]
  split_ifs
  · exact keepsClock_trans _ _ _ h1 (keepsClock_of_eq _ _ rfl rfl rfl)
  · exact keepsClock_trans _ _ _ h1 (keepsClock_trans _ _ _ (keepsClock_handleEncoder i _)
      (keepsClock_trans _ _ _ (keepsClock_handleButtonStart i.now _)
        (keepsClock_of_eq _ _ rfl rfl rfl)))
  · exact keepsClock_trans _ _ _ h1 (keepsClock_trans _ _ _ (keepsClock_handleButtonReset _)
      (keepsClock_updateCountdown i.now _))
  · exact keepsClock_trans _ _ _ h1 (keepsClock_trans _ _ _
      (keepsClock_handleFinishedScreen i.now _) (keepsClock_handleButtonReset _))
  · exact h1

/-- Countdown messages do not add to the count of any other message. -/
theorem count_of_keepsClock (a b : State) (h : KeepsClock a b) (m : SerialMsg)
    (h1 : m ≠ SerialMsg.timerFinished) (h2 : ∀ k, m ≠ SerialMsg.timerStarted k) :
    b.serial.count m = a.serial.count m := by
  obtain ⟨_, _, l, e, hl⟩ := h
  have hz : l.count m = 0 := by
    apply List.count_eq_zero_of_not_mem
    intro hm
    rcases hl m hm with h | ⟨k, h⟩
    · exact h1 h
    · exact h2 k h
  rw [e, List.count_append, hz, Nat.add_zero]

/-- C15.  The guard of the reconnect block of `loop()` is never true, so a pass
gives the same result for every behaviour of the network and every fuel; it
leaves `timeOffset` and `isDaylightSavingTime` unchanged and prints neither the
first line of `connectToWiFi` nor that of `syncTimeWithNTP`, whereas a call of
`connectToWiFi`, as made by `setup()`, prints its first line. -/
theorem c15_no_resync_in_loop (fuel fuel2 : Nat) (i : Inputs) (net2 : Net) (s : State) :
    ¬ ((!s.standbyMode && !i.wifi) = true ∧ s.standbyMode = true)
      ∧ (∃ s', loop fuel i s = some s'
          ∧ loop fuel2 { i with net := net2 } s = some s'
          ∧ s'.timeOffset = s.timeOffset
          ∧ s'.isDaylightSavingTime = s.isDaylightSavingTime
          ∧ s'.serial.count SerialMsg.connecting = s.serial.count SerialMsg.connecting
          ∧ s'.serial.count SerialMsg.synchronisiere
              = s.serial.count SerialMsg.synchronisiere)
      ∧ (connectToWiFi net2 s).serial.count SerialMsg.connecting
          = s.serial.count SerialMsg.connecting + 1 := by
  refine ⟨?_, ⟨pollInputs i s, loop_eq_pollInputs fuel i s, ?_, ?_⟩, ?_⟩
  · cases s.standbyMode <;> simp
  · rw [loop_eq_pollInputs]
    rfl
  · have h := keepsClock_pollInputs i s
    exact ⟨h.1, h.2.1,
      count_of_keepsClock _ _ h _ (by intro e; cases e) (by intro k e; cases e),
      count_of_keepsClock _ _ h _ (by intro e; cases e) (by intro k e; cases e)⟩
  · simp only [connectToWiFi, setInternalTime]
    split_ifs <;> simp [List.count_append]

/-! ## C16: rotation edges -/

/-- A pass evaluated in Selecting mode runs the encoder handler, the start
handler and the selection screen. -/
theorem pollInputs_of_runsEncoder (i : Inputs) (s : State) (h : RunsEncoder i s) :
    pollInputs i s
      = showSelection (handleButtonStart i.now (handleEncoder i (handleStandbyButton i s))) := by
  obtain ⟨hs, hc, hf⟩ := (mode_selecting_iff _).1 h
  simp [pollInputs, hs, hc, hf]

/-- A pass evaluated in another mode does not touch the selection index or the
stored clock level. -/
theorem pollInputs_of_not_runsEncoder (i : Inputs) (s : State) (h : ¬ RunsEncoder i s) :
    (pollInputs i s).selection = s.selection
      ∧ (pollInputs i s).lastCLKState = s.lastCLKState := by
  have h1 : (handleStandbyButton i s).selection = s.selection ∧
      (handleStandbyButton i s).lastCLKState = s.lastCLKState := by
    simp only [handleStandbyButton]
    split_ifs <;> exact ⟨rfl, rfl⟩
  have hm := mode_selecting_iff (handleStandbyButton i s)
  unfold RunsEncoder at h
  simp only [pollInputs]
  split_ifs with g1 g2 g3 g4
  · exact h1
  · exfalso
    apply h
    rw [hm]
    simp only [Bool.and_eq_true, Bool.not_eq_true'] at g2
    exact ⟨by simpa using g1, g2.1, g2.2⟩
  · simp only [updateCountdown, showRemaining, handleButtonReset, showSelection]
    split_ifs <;> exact h1
  · simp only [handleButtonReset, handleFinishedScreen, showSelection]
    split_ifs <;> exact h1
  · exact h1

/-- Selection and stored clock level after a pass evaluated in Selecting mode. -/
theorem selection_of_runsEncoder (i : Inputs) (s : State) (h : RunsEncoder i s)
    (h0 : 0 ≤ s.selection) (h7 : s.selection < 7) :
    (pollInputs i s).selection
        = (if s.lastCLKState = false ∧ i.clk = true then
            if i.dt = true then (s.selection + 1) % 7 else (s.selection - 1 + 7) % 7
           else s.selection)
      ∧ (pollInputs i s).lastCLKState = i.clk := by
  have h1 : (handleStandbyButton i s).selection = s.selection ∧
      (handleStandbyButton i s).lastCLKState = s.lastCLKState := by
    simp only [handleStandbyButton]
    split_ifs <;> exact ⟨rfl, rfl⟩
  obtain ⟨e1, _, _⟩ := handleEncoder_selection i (handleStandbyButton i s)
    (by rw [h1.1]; exact h0) (by rw [h1.1]; exact h7)
  rw [pollInputs_of_runsEncoder i s h, handleEncoder_frame]
  constructor
  · have : (showSelection (handleButtonStart i.now
        { handleStandbyButton i s with
          selection := (handleEncoder i (handleStandbyButton i s)).selection
          lastCLKState := i.clk })).selection
        = (handleEncoder i (handleStandbyButton i s)).selection := by
      simp only [showSelection, handleButtonStart, startCountdown]
      split_ifs <;> rfl
    rw [this, e1, h1.1, h1.2]
    cases hl : s.lastCLKState <;> cases hk : i.clk <;> cases hd : i.dt <;> simp
    all_goals omega
  · simp only [showSelection, handleButtonStart, startCountdown]
    split_ifs <;> rfl

/-- C16, counterexample.  From Selecting mode a click at 20 s starts a countdown
in a pass that reads the clock line HIGH; the passes at 21 s and 22 s are
evaluated in CountingDown mode and read nothing from the encoder, the second
being the click that ends in Selecting mode.  In the pass at 23 s, evaluated in
Selecting mode, the clock line is HIGH after having been LOW at 22 s, yet the
index stays at 1.  In the second run the line is HIGH at 22 s and at 23 s, yet
the index moves from 0 to 1. -/
theorem c16_stale_clock_level :
    (runLoop 0 [pollAt 20000 true true false, pollAt 21000 false true true,
          pollAt 22000 false true false] selectingState).map State.mode = some Mode.Selecting
      ∧ (runLoop 0 [pollAt 20000 true true false, pollAt 21000 false true true,
          pollAt 22000 false true false] selectingState).map State.selection = some 1
      ∧ (pollAt 22000 false true false).clk = false ∧ (pollAt 23000 true true true).clk = true
      ∧ (runLoop 0 [pollAt 20000 true true false, pollAt 21000 false true true,
          pollAt 22000 false true false, pollAt 23000 true true true] selectingState).map
            State.selection = some 1
      ∧ (runLoop 0 [pollAt 20000 false true false, pollAt 21000 true true true,
          pollAt 22000 true true false] selectingState).map State.mode = some Mode.Selecting
      ∧ (runLoop 0 [pollAt 20000 false true false, pollAt 21000 true true true,
          pollAt 22000 true true false] selectingState).map State.selection = some 0
      ∧ (pollAt 22000 true true false).clk = true
      ∧ (runLoop 0 [pollAt 20000 false true false, pollAt 21000 true true true,
          pollAt 22000 true true false, pollAt 23000 true true true] selectingState).map
            State.selection = some 1 := by
  decide

/-- C16, amended.  In a pass evaluated in Selecting mode, with the index in
range, the index changes iff the stored level `lastCLKState` is LOW and the
clock line reads HIGH; it then becomes `(selection + 1) mod 7` for data HIGH and
`(selection - 1 + 7) mod 7` for data LOW, one step, and the pass stores the
level it read.  A pass evaluated in Standby, CountingDown or Finished mode
leaves the index and the stored level unchanged.  So the stored level is that
of the most recent pass evaluated in Selecting mode: if the preceding pass `j`
was one, the index changes iff the line read LOW in `j` and reads HIGH now. -/
theorem c16_rotation_edge (i j : Inputs) (s sp : State) :
    (RunsEncoder i s → 0 ≤ s.selection → s.selection < 7 →
      ((pollInputs i s).selection ≠ s.selection ↔ (s.lastCLKState = false ∧ i.clk = true))
      ∧ (pollInputs i s).selection
          = (if s.lastCLKState = false ∧ i.clk = true then
              if i.dt = true then (s.selection + 1) % 7 else (s.selection - 1 + 7) % 7
             else s.selection)
      ∧ (pollInputs i s).lastCLKState = i.clk)
    ∧ (¬ RunsEncoder i s →
        (pollInputs i s).selection = s.selection
          ∧ (pollInputs i s).lastCLKState = s.lastCLKState)
    ∧ (RunsEncoder j sp → 0 ≤ sp.selection → sp.selection < 7 →
        RunsEncoder i (pollInputs j sp) →
        ((pollInputs i (pollInputs j sp)).selection ≠ (pollInputs j sp).selection
          ↔ (j.clk = false ∧ i.clk = true))) := by
  have part1 : ∀ (i : Inputs) (s : State), RunsEncoder i s → 0 ≤ s.selection →
      s.selection < 7 →
      ((pollInputs i s).selection ≠ s.selection ↔ (s.lastCLKState = false ∧ i.clk = true)) := by
    intro i s h h0 h7
    rw [(selection_of_runsEncoder i s h h0 h7).1]
    by_cases hr : s.lastCLKState = false ∧ i.clk = true
    · simp only [hr, and_self, if_true, iff_true]
      split_ifs <;> omega
    · simp only [hr, if_false, ne_eq, not_true_eq_false]
  refine ⟨fun h h0 h7 => ⟨part1 i s h h0 h7, selection_of_runsEncoder i s h h0 h7⟩,
    pollInputs_of_not_runsEncoder i s, ?_⟩
  intro hj h0 h7 hi
  obtain ⟨_, hl⟩ := selection_of_runsEncoder j sp hj h0 h7
  obtain ⟨r0, r7⟩ := pollInputs_selection_range j sp h0 h7
  rw [part1 i (pollInputs j sp) hi r0 r7, hl]

/-- C16, witness: two passes in Selecting mode, the clock line LOW in the first
and HIGH in the second. -/
theorem c16_rotation_edge_witness :
    RunsEncoder (pollAt 23000 false true true) selectingState
      ∧ RunsEncoder (pollAt 23010 true true true)
          (pollInputs (pollAt 23000 false true true) selectingState)
      ∧ ((pollInputs (pollAt 23010 true true true)
            (pollInputs (pollAt 23000 false true true) selectingState)).selection
          ≠ (pollInputs (pollAt 23000 false true true) selectingState).selection
        ↔ ((pollAt 23000 false true true).clk = false ∧ (pollAt 23010 true true true).clk = true))
      ∧ (pollInputs (pollAt 23010 true true true) selectingState).selection
          = (if selectingState.lastCLKState = false ∧ (pollAt 23010 true true true).clk = true then
              if (pollAt 23010 true true true).dt = true then (selectingState.selection + 1) % 7
              else (selectingState.selection - 1 + 7) % 7
             else selectingState.selection) :=
  have h1 : RunsEncoder (pollAt 23000 false true true) selectingState := by
    unfold RunsEncoder; decide
  have h2 : RunsEncoder (pollAt 23010 true true true)
      (pollInputs (pollAt 23000 false true true) selectingState) := by
    unfold RunsEncoder; decide
  have h3 : RunsEncoder (pollAt 23010 true true true) selectingState := by
    unfold RunsEncoder; decide
  ⟨h1, h2,
    (c16_rotation_edge (pollAt 23010 true true true) (pollAt 23000 false true true)
      selectingState selectingState).2.2 h1 (by decide) (by decide) h2,
    ((c16_rotation_edge (pollAt 23010 true true true) (pollAt 23000 false true true)
      selectingState selectingState).1 h3 (by decide) (by decide)).2.1⟩

/-! ## C17: the single-click flag -/

/-- One step of the click count. -/
theorem clickCount_cons (fuel : Nat) (i : Inputs) (rest : List Inputs) (s : State) :
    clickCount fuel (i :: rest) s
      = (if s.lastSWState = true ∧ i.sw = false then 1 else 0)
        + clickCount fuel rest (pollInputs i s) := by
  simp only [clickCount, loop_eq_pollInputs, (handleStandbyButton_fields i s).2.1]
  simp

/-- No pass of a run raises the flag if none sees a falling edge: the button is
held down from the start, or it is up in every pass. -/
theorem clickCount_eq_zero (fuel : Nat) (passes : List Inputs) (s : State)
    (h : (s.lastSWState = false ∧ ∀ p ∈ passes, p.sw = false) ∨ ∀ p ∈ passes, p.sw = true) :
    clickCount fuel passes s = 0 := by
  induction passes generalizing s with
  | nil => rfl
  | cons i rest ih =>
    have hl : (pollInputs i s).lastSWState = i.sw :=
      (pollInputs_button_fields i s).2.2.trans (handleStandbyButton_fields i s).2.2.2
    rw [clickCount_cons]
    rcases h with ⟨h1, h2⟩ | h2
    · have hi := h2 i (List.mem_cons_self _ _)
      rw [ih (pollInputs i s) (Or.inl ⟨by rw [hl, hi], fun p hp => h2 p (List.mem_cons_of_mem _ hp)⟩)]
      simp [h1]
    · have hi := h2 i (List.mem_cons_self _ _)
      rw [ih (pollInputs i s) (Or.inr fun p hp => h2 p (List.mem_cons_of_mem _ hp))]
      simp [hi]

/-- A pass without a falling edge ends with the single-click flag clear. -/
theorem pollInputs_no_edge_buttonPressed (i : Inputs) (s : State)
    (hno : ¬ (s.lastSWState = true ∧ i.sw = false)) : (pollInputs i s).buttonPressed = false := by
  simp only [pollInputs, handleStandbyButton_no_edge i s hno]
  split_ifs
  · rfl
  · rw [handleEncoder_frame]
    simp [showSelection, handleButtonStart]
  · simp [updateCountdown, showRemaining, handleButtonReset]
    split_ifs <;> rfl
  · simp only [handleButtonReset, handleFinishedScreen]
    split_ifs <;> simp_all
  · rfl

/-- C17.  In every pass, right after `handleStandbyButton` the flag
`buttonPressed` is `true` iff the button line read HIGH in the previous pass
(`lastSWState`, which every pass sets to the level it read and which starts
HIGH) and reads LOW in this pass.  Hence the passes over which the button is
held LOW raise the flag exactly once, passes with the line HIGH never raise it,
and a pass without a falling edge ends with the flag clear whatever it was. -/
theorem c17_click_edge_triggered (fuel : Nat) (i : Inputs) (passes : List Inputs)
    (s s0 : State) :
    (handleStandbyButton i s).buttonPressed = decide (s.lastSWState = true ∧ i.sw = false)
      ∧ (∃ s', loop fuel i s = some s' ∧ s'.lastSWState = i.sw)
      ∧ State.init.lastSWState = true
      ∧ (IsBootState s0 → s0.lastSWState = true)
      ∧ (s.lastSWState = true → passes ≠ [] → (∀ p ∈ passes, p.sw = false) →
          clickCount fuel passes s = 1)
      ∧ ((∀ p ∈ passes, p.sw = true) → clickCount fuel passes s = 0)
      ∧ (¬ (s.lastSWState = true ∧ i.sw = false) →
          (handleStandbyButton i s).buttonPressed = false
            ∧ ∃ s', loop fuel i s = some s' ∧ s'.buttonPressed = false) := by
  have hl : ∀ (i : Inputs) (s : State), (pollInputs i s).lastSWState = i.sw := fun i s =>
    (pollInputs_button_fields i s).2.2.trans (handleStandbyButton_fields i s).2.2.2
  refine ⟨(handleStandbyButton_fields i s).2.1, ⟨_, loop_eq_pollInputs fuel i s, hl i s⟩, rfl,
    ?_, ?_, fun h => clickCount_eq_zero fuel passes s (Or.inr h), ?_⟩
  · rintro ⟨f, clk, net, hb⟩
    exact (setup_fields f clk net s0 hb).2.2.2.2.1
  · intro h1 hne hall
    cases passes with
    | nil => exact absurd rfl hne
    | cons p rest =>
      have hp := hall p (List.mem_cons_self _ _)
      rw [clickCount_cons, clickCount_eq_zero fuel rest (pollInputs p s)
        (Or.inl ⟨by rw [hl, hp], fun q hq => hall q (List.mem_cons_of_mem _ hq)⟩)]
      simp [h1, hp]
  · intro hno
    refine ⟨?_, _, loop_eq_pollInputs fuel i s, pollInputs_no_edge_buttonPressed i s hno⟩
    rw [(handleStandbyButton_fields i s).2.1]
    simpa using hno

/-- C17, witness: in standby the button is pressed at 20 s and held over three
passes, which raises the flag once; the click is not consumed in standby and
the next pass, without an edge, clears it. -/
theorem c17_click_edge_triggered_witness :
    standbyState.lastSWState = true
      ∧ clickCount 0 [passAt 20400 false, passAt 20410 false, passAt 20420 false] standbyState = 1
      ∧ clickCount 0 [passAt 20400 true, passAt 20410 true] standbyState = 0
      ∧ (loop 0 (passAt 20400 false) standbyState).map State.buttonPressed = some true
      ∧ ¬ ((pollInputs (passAt 20400 false) standbyState).lastSWState = true
            ∧ (passAt 20410 false).sw = false)
      ∧ (∃ s', loop 0 (passAt 20410 false) (pollInputs (passAt 20400 false) standbyState) = some s'
          ∧ s'.buttonPressed = false) :=
  ⟨by decide,
    (c17_click_edge_triggered 0 (passAt 20400 false)
      [passAt 20400 false, passAt 20410 false, passAt 20420 false] standbyState
      State.init).2.2.2.2.1 (by decide) (by decide) (by decide),
    (c17_click_edge_triggered 0 (passAt 20400 false) [passAt 20400 true, passAt 20410 true]
      standbyState State.init).2.2.2.2.2.1 (by decide),
    by decide, by decide,
    ((c17_click_edge_triggered 0 (passAt 20410 false) []
      (pollInputs (passAt 20400 false) standbyState) State.init).2.2.2.2.2.2 (by decide)).2⟩

/-! ## C18: exclusive modes -/

/-- The mode flags after `handleStandbyButton` are those before, but for `standbyMode`. -/
theorem handleStandbyButton_flags (i : Inputs) (s : State) :
    (handleStandbyButton i s).countdownActive = s.countdownActive
      ∧ (handleStandbyButton i s).finishedState = s.finishedState := by
  simp only [handleStandbyButton]
  split_ifs <;> exact ⟨rfl, rfl⟩

/-- Resetting keeps the flags exclusive. -/
theorem exclusive_handleButtonReset (s : State) (h : Exclusive s) :
    Exclusive (handleButtonReset s) := by
  unfold Exclusive at *
  simp only [handleButtonReset, showSelection]
  split_ifs <;> simp_all

/-- Updating the countdown keeps the flags exclusive. -/
theorem exclusive_updateCountdown (now : Nat) (s : State) (h : Exclusive s) :
    Exclusive (updateCountdown now s) := by
  unfold Exclusive at *
  simp only [updateCountdown, showRemaining]
  split_ifs <;> simp_all

/-- A pass keeps the flags exclusive. -/
theorem exclusive_pollInputs (i : Inputs) (s : State) (h : Exclusive s) :
    Exclusive (pollInputs i s) := by
  obtain ⟨a1, a2⟩ := handleStandbyButton_flags i s
  have h1 : Exclusive (handleStandbyButton i s) := by
    unfold Exclusive at *
    rw [a1, a2]
    exact h
  simp only [pollInputs]
  split_ifs with g1 g2 g3 g4
  · exact h1
  · simp only [Bool.and_eq_true, Bool.not_eq_true'] at g2
    unfold Exclusive
    rw [handleEncoder_frame]
    simp only [showSelection, handleButtonStart, startCountdown]
    split_ifs <;> simp [g2.2]
  · exact exclusive_updateCountdown _ _ (exclusive_handleButtonReset _ h1)
  · apply exclusive_handleButtonReset
    unfold Exclusive at *
    simp only [handleFinishedScreen]
    split_ifs <;> exact h1
  · exact h1

/-- Every run returns and keeps the flags exclusive. -/
theorem exclusive_runLoop (fuel : Nat) (passes : List Inputs) (s : State) (h : Exclusive s) :
    ∃ s', runLoop fuel passes s = some s' ∧ Exclusive s' := by
  induction passes generalizing s with
  | nil => exact ⟨s, rfl, h⟩
  | cons i rest ih =>
    obtain ⟨s', r1, r2⟩ := ih (pollInputs i s) (exclusive_pollInputs i s h)
    exact ⟨s', by simp only [runLoop, loop_eq_pollInputs, Option.some_bind]; exact r1, r2⟩

/-- C18.  In every state reached from the initial state (the globals as
defined, or as `setup()` leaves them: `standbyMode = true`, `countdownActive =
false`, `finishedState = false`) by any sequence of passes with arbitrary inputs
and instants, `countdownActive` and `finishedState` are not both true; the
decoded mode is then the branch `loop()` starts from: CountingDown iff
`countdownActive` alone is set, Finished iff `finishedState` alone is set. -/
theorem c18_mode_exclusivity (fuel : Nat) (passes : List Inputs) (s0 : State)
    (h0 : s0 = State.init ∨ IsBootState s0) :
    s0.standbyMode = true ∧ s0.countdownActive = false ∧ s0.finishedState = false
      ∧ ∃ s, runLoop fuel passes s0 = some s
          ∧ ¬ (s.countdownActive = true ∧ s.finishedState = true)
          ∧ (s.mode = Mode.Standby ∨ s.mode = Mode.Selecting ∨ s.mode = Mode.CountingDown
              ∨ s.mode = Mode.Finished)
          ∧ (s.standbyMode = false →
              (s.mode = Mode.CountingDown ↔ s.countdownActive = true)
              ∧ (s.mode = Mode.Finished ↔ s.finishedState = true)
              ∧ (s.mode = Mode.Selecting
                  ↔ (s.countdownActive = false ∧ s.finishedState = false))) := by
  have hinit : s0.standbyMode = true ∧ s0.countdownActive = false ∧ s0.finishedState = false := by
    rcases h0 with rfl | ⟨f, clk, net, hb⟩
    · exact ⟨rfl, rfl, rfl⟩
    · obtain ⟨_, b1, b2, b3, _⟩ := setup_fields f clk net s0 hb
      exact ⟨b1, b2, b3⟩
  obtain ⟨s, r1, r2⟩ := exclusive_runLoop fuel passes s0
    (by unfold Exclusive; simp [hinit.2.1])
  refine ⟨hinit.1, hinit.2.1, hinit.2.2, s, r1, r2, ?_, ?_⟩
  · cases h1 : s.standbyMode <;> cases h2 : s.countdownActive <;> cases h3 : s.finishedState <;>
      simp [State.mode, h1, h2, h3]
  · intro hs
    unfold Exclusive at r2
    cases h2 : s.countdownActive <;> cases h3 : s.finishedState <;>
      simp_all [State.mode]

/-- C18, witness: the run from the initial state through a double click, the
expiry of the one-minute countdown and a blink. -/
theorem c18_mode_exclusivity_witness :
    ∃ s, runLoop 0 [passAt 20000 false, passAt 20100 true, passAt 20300 false, passAt 80300 true,
        passAt 80800 true] State.init = some s
      ∧ ¬ (s.countdownActive = true ∧ s.finishedState = true)
      ∧ (s.mode = Mode.Standby ∨ s.mode = Mode.Selecting ∨ s.mode = Mode.CountingDown
          ∨ s.mode = Mode.Finished) :=
  match (c18_mode_exclusivity 0 [passAt 20000 false, passAt 20100 true, passAt 20300 false,
    passAt 80300 true, passAt 80800 true] State.init (Or.inl rfl)).2.2.2 with
  | ⟨s, h1, h2, h3, _⟩ => ⟨s, h1, h2, h3⟩

/-! ## C19: standby -/

/-- C19.  From a state with `standbyMode = true`, a pass that does not toggle
standby (no falling edge with a 32-bit gap below 400 to the previous one) stays
in standby and leaves `selection`, `countdownActive`, `finishedState`,
`countdownStartMillis`, `countdownDurationMillis`, `lastCLKState` and
`finishedBlinkState` unchanged, as well as `lastBlinkMillis` and the serial
log, whatever the encoder lines, the button level and the instant. -/
theorem c19_standby_inert (fuel : Nat) (i : Inputs) (s : State) (hs : s.standbyMode = true)
    (hno : ¬ ((s.lastSWState = true ∧ i.sw = false)
      ∧ sub32 i.now s.lastButtonPressTime < 400)) :
    ∃ s', loop fuel i s = some s' ∧ s'.standbyMode = true ∧ s'.mode = Mode.Standby
      ∧ s'.selection = s.selection ∧ s'.countdownActive = s.countdownActive
      ∧ s'.finishedState = s.finishedState
      ∧ s'.countdownStartMillis = s.countdownStartMillis
      ∧ s'.countdownDurationMillis = s.countdownDurationMillis
      ∧ s'.lastCLKState = s.lastCLKState ∧ s'.finishedBlinkState = s.finishedBlinkState
      ∧ s'.lastBlinkMillis = s.lastBlinkMillis ∧ s'.serial = s.serial := by
  refine ⟨_, loop_eq_pollInputs fuel i s, ?_⟩
  have h1 : (handleStandbyButton i s).standbyMode = true := by
    rw [(handleStandbyButton_fields i s).1, if_neg hno, hs]
  have h2 : (handleStandbyButton i s).selection = s.selection
      ∧ (handleStandbyButton i s).countdownActive = s.countdownActive
      ∧ (handleStandbyButton i s).finishedState = s.finishedState
      ∧ (handleStandbyButton i s).countdownStartMillis = s.countdownStartMillis
      ∧ (handleStandbyButton i s).countdownDurationMillis = s.countdownDurationMillis
      ∧ (handleStandbyButton i s).lastCLKState = s.lastCLKState
      ∧ (handleStandbyButton i s).finishedBlinkState = s.finishedBlinkState
      ∧ (handleStandbyButton i s).lastBlinkMillis = s.lastBlinkMillis
      ∧ (handleStandbyButton i s).serial = s.serial := by
    simp only [handleStandbyButton]
    split_ifs <;> simp
  simp only [pollInputs, h1, if_true]
  refine ⟨h1, ?_, h2⟩
  simp only [State.mode, showDateTime, updateInternalTime, h1, if_true]

/-- C19, witness: an isolated click with the encoder turning while a countdown
is pending in standby. -/
theorem c19_standby_inert_witness :
    ∃ s', loop 0 (pollAt 90000 true true false) standbyCounting
        = some s'
      ∧ s'.standbyMode = true ∧ s'.mode = Mode.Standby
      ∧ s'.selection = standbyCounting.selection
      ∧ s'.countdownActive = standbyCounting.countdownActive
      ∧ s'.finishedState = standbyCounting.finishedState
      ∧ s'.countdownStartMillis
          = standbyCounting.countdownStartMillis
      ∧ s'.countdownDurationMillis
          = standbyCounting.countdownDurationMillis
      ∧ s'.lastCLKState = standbyCounting.lastCLKState
      ∧ s'.finishedBlinkState
          = standbyCounting.finishedBlinkState
      ∧ s'.lastBlinkMillis = standbyCounting.lastBlinkMillis
      ∧ s'.serial = standbyCounting.serial :=
  c19_standby_inert 0 (pollAt 90000 true true false) standbyCounting
    (by decide) (by decide)

/-! ## C20: the remaining time on the display -/

/-- Two characters are printed by `%02d` for a number from 0 to 59. -/
theorem fmt02d_length (n : Int) (h0 : 0 ≤ n) (h1 : n ≤ 59) : (fmt02d n).length = 2 := by
  interval_cases n <;> rfl

/-- C20.  For `msRemaining` from 0 to 14400000, `showRemaining` computes
`hours`, `minutes`, `seconds` with `hours*3600 + minutes*60 + seconds =
msRemaining / 1000`, `0 ≤ hours ≤ 4`, `0 ≤ minutes ≤ 59`, `0 ≤ seconds ≤ 59`;
the clamps `max(.., 0)` return their argument, and the formatted text has 8
characters, so it fits the 9-byte buffer with its terminator untruncated. -/
theorem c20_remaining_decomposition (ms : Nat) (hms : ms ≤ 14400000) :
    ∃ hours minutes seconds : Int,
      hours = Int.tdiv ((ms / 1000 : Nat) : Int) 3600
        ∧ minutes = Int.tdiv (Int.tmod ((ms / 1000 : Nat) : Int) 3600) 60
        ∧ seconds = Int.tmod ((ms / 1000 : Nat) : Int) 60
        ∧ hours * 3600 + minutes * 60 + seconds = ((ms / 1000 : Nat) : Int)
        ∧ 0 ≤ hours ∧ hours ≤ 4 ∧ 0 ≤ minutes ∧ minutes ≤ 59 ∧ 0 ≤ seconds ∧ seconds ≤ 59
        ∧ max hours 0 = hours ∧ max minutes 0 = minutes ∧ max seconds 0 = seconds
        ∧ showRemainingFrame ms = Frame.framedTime hours minutes seconds
        ∧ showRemainingText ms = formatTime hours minutes seconds
        ∧ (showRemainingText ms).length = 8
        ∧ (formatTime hours minutes seconds).length + 1 ≤ 9 := by
  have hT : (0 : Int) ≤ ((ms / 1000 : Nat) : Int) ∧ ((ms / 1000 : Nat) : Int) ≤ 14400 := by
    omega
  simp only [showRemainingFrame, showRemainingText, snprintfTime]
  generalize ((ms / 1000 : Nat) : Int) = T at hT ⊢
  obtain ⟨t0, t1⟩ := hT
  have e1 : Int.tdiv T 3600 = T / 3600 := Int.tdiv_eq_ediv t0 (by decide)
  have e2 : Int.tmod T 3600 = T % 3600 := Int.tmod_eq_emod t0 (by decide)
  have e3 : Int.tmod T 60 = T % 60 := Int.tmod_eq_emod t0 (by decide)
  have e4 : Int.tdiv (T % 3600) 60 = T % 3600 / 60 := Int.tdiv_eq_ediv (by omega) (by decide)
  have b1 : 0 ≤ T / 3600 := by omega
  have b2 : T / 3600 ≤ 4 := by omega
  have b3 : 0 ≤ T % 3600 / 60 := by omega
  have b4 : T % 3600 / 60 ≤ 59 := by omega
  have b5 : 0 ≤ T % 60 := by omega
  have b6 : T % 60 ≤ 59 := by omega
  have l1 := fmt02d_length _ b1 (by omega)
  have l2 := fmt02d_length _ b3 b4
  have l3 := fmt02d_length _ b5 b6
  have hlen : (formatTime (T / 3600) (T % 3600 / 60) (T % 60)).length = 8 := by
    simp only [formatTime, List.length_append, List.length_cons, l1, l2, l3]
  rw [e2, e4, e1, e3, max_eq_left b1, max_eq_left b3, max_eq_left b5]
  refine ⟨_, _, _, rfl, rfl, rfl, by omega, b1, b2, b3, b4, b5, b6, max_eq_left b1,
    max_eq_left b3, max_eq_left b5, rfl, ?_, ?_,
    by rw [hlen]⟩
  · exact List.take_of_length_le (by rw [hlen])
  · rw [List.take_of_length_le (by rw [hlen]), hlen]

/-- C20, witness: the longest selectable duration, four hours. -/
theorem c20_remaining_decomposition_witness :
    (14400000 : Nat) ≤ 14400000
      ∧ showRemainingFrame 14400000 = Frame.framedTime 4 0 0
      ∧ showRemainingText 14400000 = ['0', '4', ':', '0', '0', ':', '0', '0']
      ∧ ∃ hours minutes seconds : Int,
        hours = Int.tdiv ((14400000 / 1000 : Nat) : Int) 3600
          ∧ minutes = Int.tdiv (Int.tmod ((14400000 / 1000 : Nat) : Int) 3600) 60
          ∧ seconds = Int.tmod ((14400000 / 1000 : Nat) : Int) 60
          ∧ hours * 3600 + minutes * 60 + seconds = ((14400000 / 1000 : Nat) : Int)
          ∧ 0 ≤ hours ∧ hours ≤ 4 ∧ 0 ≤ minutes ∧ minutes ≤ 59 ∧ 0 ≤ seconds ∧ seconds ≤ 59
          ∧ max hours 0 = hours ∧ max minutes 0 = minutes ∧ max seconds 0 = seconds
          ∧ showRemainingFrame 14400000 = Frame.framedTime hours minutes seconds
          ∧ showRemainingText 14400000 = formatTime hours minutes seconds
          ∧ (showRemainingText 14400000).length = 8
          ∧ (formatTime hours minutes seconds).length + 1 ≤ 9 :=
  ⟨by decide, by decide, by decide, c20_remaining_decomposition 14400000 (by decide)⟩

end TimerEsp
